import Mathlib

/-!
# Verification of the two-deck mixer audio engine (src/audio_engine/src/main.rs)

This file gives a shallow embedding of the core data model and operations of
the Rust audio engine and proves/refutes the frozen claims about it.

Modelling conventions:
* PCM sample amplitudes (`f32` in the source) are modelled as exact rationals
  `ℚ`.  All claims under scrutiny concern the *structure* of the arithmetic
  (mix formula, counters, thresholds), never floating-point rounding.
* The crossbeam channel endpoint held by a deck (`receiver`) is modelled as
  `Option Chan` where a `Chan` carries the list of chunk payloads that are
  currently available to `try_recv` plus a flag recording whether the sender
  side has been dropped.  `receiver = none` is the detached state, exactly as
  in the source.
* Wall-clock `Instant`s are modelled as natural numbers (milliseconds).
* Diagnostic `info` / `debug` / `error` log lines are modelled as payload-free
  events (no claim inspects their payload); lifecycle events keep their
  payloads.  The periodic 30-second status debug line is not modelled.
-/

/-- Sample rate, 48 kHz (constant `SAMPLE_RATE` in the source). -/
def SAMPLE_RATE : ℕ := 48000

/-- Channel count, stereo (constant `CHANNELS` in the source). -/
def CHANNELS : ℕ := 2

/-- Interleaved samples per mixer chunk, 20 ms (constant `CHUNK_SIZE`). -/
def CHUNK_SIZE : ℕ := 960

/-- Minimum-played gate for end events (constant `MIN_SAMPLES_PLAYED_FOR_END`
in `mixer_loop`): `SAMPLE_RATE * CHANNELS * 25`, i.e. 25 seconds. -/
def MIN_SAMPLES_PLAYED_FOR_END : ℕ := SAMPLE_RATE * CHANNELS * 25

/-- Approaching-end threshold (constant `APPROACHING_END_THRESHOLD` in
`mixer_loop`): `SAMPLE_RATE * CHANNELS * 3`, i.e. 3 seconds. -/
def APPROACHING_END_THRESHOLD : ℕ := SAMPLE_RATE * CHANNELS * 3

/-- Receiver-side view of the bounded decoder channel: the chunk payloads that
`try_recv` can currently return, and whether the sending side has been
dropped (after the pending chunks are drained, `try_recv` then yields
`Disconnected`). -/
structure Chan where
  pending : List (List ℚ)
  closed : Bool
deriving DecidableEq

/-- The `Deck` struct of the source, field for field.  `samples` is the
`VecDeque` with its front at the list head; `receiver` is the optional channel
endpoint. -/
structure Deck where
  name : String
  samples : List ℚ
  full_samples : List ℚ
  is_loading : Bool
  has_ended : Bool
  receiver : Option Chan
  buffer_level : ℕ
  total_samples_read : ℕ
  real_samples_received : ℕ
  samples_played : ℕ
  approaching_end_sent : Bool
  cancel_token : Option Bool
  load_started_at : Option ℕ
deriving DecidableEq

namespace Deck

/-- `Deck::new` -/
def new (name : String) : Deck where
  name := name
  samples := []
  full_samples := []
  is_loading := false
  has_ended := false
  receiver := none
  buffer_level := 0
  total_samples_read := 0
  real_samples_received := 0
  samples_played := 0
  approaching_end_sent := false
  cancel_token := none
  load_started_at := none

/-- `Deck::load`: cancel the previous decoder, clear all buffers and
counters, attach a fresh channel endpoint and a fresh cancellation token.
`now` is the current instant recorded in `load_started_at`.  The URL only
feeds the (unmodelled) decoder thread, so it is not a parameter. -/
def load (d : Deck) (now : ℕ) : Deck :=
  { d with
    samples := []
    full_samples := []
    buffer_level := 0
    total_samples_read := 0
    real_samples_received := 0
    samples_played := 0
    has_ended := false
    approaching_end_sent := false
    is_loading := true
    load_started_at := some now
    receiver := some ⟨[], false⟩
    cancel_token := some false }

/-- One `Ok(chunk)` arm of the `try_recv` loop inside `poll_receiver`:
append the chunk to `samples` and `full_samples`, bump
`real_samples_received`, clear `load_started_at`, refresh `buffer_level`. -/
def recvChunk (d : Deck) (c : List ℚ) : Deck :=
  { d with
    real_samples_received := d.real_samples_received + c.length
    load_started_at := none
    full_samples := d.full_samples ++ c
    samples := d.samples ++ c
    buffer_level := d.samples.length + c.length }

/-- `Deck::poll_receiver`: drain every immediately available chunk; if the
channel has disconnected, latch `has_ended` and detach the receiver. -/
def poll_receiver (d : Deck) : Deck :=
  match d.receiver with
  | none => d
  | some ch =>
    let d1 := ch.pending.foldl recvChunk d
    if ch.closed then { d1 with has_ended := true, receiver := none }
    else { d1 with receiver := some ⟨[], false⟩ }

/-- `Deck::get_next_sample`: poll the receiver first; pop a queued sample if
available (bumping both counters); otherwise return silence unless the deck
has ended or has a detached receiver after having played (post-restart
exhaustion), in which case "no sample" is returned. -/
def get_next_sample (d0 : Deck) : Option ℚ × Deck :=
  let d := d0.poll_receiver
  match d.samples with
  | s :: rest =>
    (some s, { d with
      samples := rest
      buffer_level := d.buffer_level - 1
      total_samples_read := d.total_samples_read + 1
      samples_played := d.samples_played + 1 })
  | [] =>
    if d.has_ended = false then
      if d.receiver = none ∧ 0 < d.samples_played then
        (none, { d with has_ended := true })
      else
        (some 0, { d with total_samples_read := d.total_samples_read + 1 })
    else (none, d)

/-- `Deck::is_ready_for_crossfade`: `samples.len() >= SAMPLE_RATE * CHANNELS / 2`. -/
def is_ready_for_crossfade (d : Deck) : Bool :=
  decide (SAMPLE_RATE * CHANNELS / 2 ≤ d.samples.length)

/-- `Deck::restart`: repopulate `samples` from `full_samples`, zero
`samples_played` and `total_samples_read`, refresh `buffer_level`. -/
def restart (d : Deck) : Deck :=
  { d with
    samples := d.full_samples
    samples_played := 0
    total_samples_read := 0
    buffer_level := d.full_samples.length }

/-- Environment step (decoder thread side): one chunk becomes available on
the channel.  A no-op when the receiver is detached. -/
def arrive (d : Deck) (c : List ℚ) : Deck :=
  match d.receiver with
  | none => d
  | some ch => { d with receiver := some ⟨ch.pending ++ [c], ch.closed⟩ }

/-- Environment step (decoder thread side): the sender is dropped; pending
chunks stay readable, after which `try_recv` reports `Disconnected`. -/
def closeChan (d : Deck) : Deck :=
  match d.receiver with
  | none => d
  | some ch => { d with receiver := some ⟨ch.pending, true⟩ }

/-- A deck whose channel has nothing to deliver right now: either detached,
or attached with no pending chunk and the sender still alive.  On such a deck
`poll_receiver` is the identity. -/
def quiescent (d : Deck) : Prop :=
  d.receiver = none ∨ d.receiver = some ⟨[], false⟩

theorem poll_receiver_quiescent {d : Deck} (h : d.quiescent) :
    d.poll_receiver = d := by
  rcases h with h | h
  · simp [poll_receiver, h]
  · cases d
    simp_all [poll_receiver]

/-- Characterization of the crossfade-ready threshold as a plain numeral. -/
theorem is_ready_char (d : Deck) :
    d.is_ready_for_crossfade = true ↔ 48000 ≤ d.samples.length := by
  rw [is_ready_for_crossfade, decide_eq_true_eq]
  norm_num [SAMPLE_RATE, CHANNELS]

end Deck

section ClaimC4

/-- A deck holding exactly 24000 queued interleaved samples: the boundary
value named by the spec's crossfade-ready threshold. -/
def deck24000 : Deck :=
  { Deck.new "A" with samples := List.replicate 24000 0 }

/-- C4 (counterexample): the claim states `is_ready_for_crossfade()` is true
iff `samples.len() ≥ 24000`.  At a deck holding exactly 24000 queued samples
the claimed threshold is met but the code reports not-ready: the source
threshold is `SAMPLE_RATE * CHANNELS / 2 = 48000`. -/
theorem is_ready_claim_false_at_24000 :
    24000 ≤ deck24000.samples.length ∧ deck24000.is_ready_for_crossfade = false := by
  have hlen : deck24000.samples.length = 24000 := by
    show (List.replicate 24000 (0 : ℚ)).length = 24000
    rw [List.length_replicate]
  refine ⟨by rw [hlen], ?_⟩
  cases hready : deck24000.is_ready_for_crossfade
  · rfl
  · exfalso
    have h48 := (Deck.is_ready_char deck24000).mp hready
    rw [hlen] at h48
    omega

/-- C4 (amended): `is_ready_for_crossfade()` returns true iff the deck's
queued sample count `samples.len()` is at least `SAMPLE_RATE * CHANNELS / 2 =
48000` interleaved samples (0.5 seconds of stereo audio). -/
theorem is_ready_for_crossfade_iff (d : Deck) :
    d.is_ready_for_crossfade = true ↔ 48000 ≤ d.samples.length :=
  Deck.is_ready_char d

/-- C4 witness: the amended threshold evaluated at a concrete ready deck. -/
theorem is_ready_for_crossfade_iff_witness :
    ({ Deck.new "A" with samples := List.replicate 48000 0 } : Deck).is_ready_for_crossfade = true :=
  (is_ready_for_crossfade_iff _).mpr (by
    show (48000 : ℕ) ≤ (List.replicate 48000 (0 : ℚ)).length
    rw [List.length_replicate])

end ClaimC4

section ClaimC6

/-- C6: case analysis of `Deck::get_next_sample` (which first invokes
`poll_receiver`, written `d.poll_receiver` below).  (1) A queued sample is
popped, incrementing both `samples_played` and `total_samples_read`.
(2) Otherwise, if the deck has not ended and it is not the case that the
receiver is detached with `samples_played > 0`, silence `0.0` is returned and
only `total_samples_read` is incremented.  (3) If the receiver is detached
and `samples_played > 0`, `has_ended` is latched and no sample is returned.
(4) If the deck has ended, no sample is returned and the deck is unchanged. -/
theorem get_next_sample_cases (d : Deck) :
    (∀ s rest, d.poll_receiver.samples = s :: rest →
      (d.get_next_sample).1 = some s ∧
      (d.get_next_sample).2.samples = rest ∧
      (d.get_next_sample).2.samples_played = d.poll_receiver.samples_played + 1 ∧
      (d.get_next_sample).2.total_samples_read = d.poll_receiver.total_samples_read + 1) ∧
    (d.poll_receiver.samples = [] → d.poll_receiver.has_ended = false →
      ¬(d.poll_receiver.receiver = none ∧ 0 < d.poll_receiver.samples_played) →
      (d.get_next_sample).1 = some 0 ∧
      (d.get_next_sample).2.total_samples_read = d.poll_receiver.total_samples_read + 1 ∧
      (d.get_next_sample).2.samples_played = d.poll_receiver.samples_played) ∧
    (d.poll_receiver.samples = [] → d.poll_receiver.has_ended = false →
      d.poll_receiver.receiver = none → 0 < d.poll_receiver.samples_played →
      (d.get_next_sample).1 = none ∧ (d.get_next_sample).2.has_ended = true) ∧
    (d.poll_receiver.samples = [] → d.poll_receiver.has_ended = true →
      (d.get_next_sample).1 = none ∧ (d.get_next_sample).2 = d.poll_receiver) := by
  refine ⟨?_, ?_, ?_, ?_⟩
  · intro s rest h
    simp [Deck.get_next_sample, h]
  · intro h he hn
    simp [Deck.get_next_sample, h, he, hn]
  · intro h he hr hp
    simp [Deck.get_next_sample, h, he, hr, hp]
  · intro h he
    simp [Deck.get_next_sample, h, he]

/-- Concrete decks exercising the four cases of `get_next_sample`. -/
def deckPop : Deck := { Deck.new "A" with samples := [5] }

def deckSilent : Deck := Deck.new "A"

def deckExhausted : Deck := { Deck.new "A" with samples_played := 1 }

def deckEnded : Deck := { Deck.new "A" with has_ended := true }

/-- C6 witness: the four cases evaluated at concrete decks. -/
theorem get_next_sample_cases_witness :
    (deckPop.get_next_sample).1 = some 5 ∧
    (deckSilent.get_next_sample).1 = some 0 ∧
    (deckExhausted.get_next_sample).2.has_ended = true ∧
    (deckEnded.get_next_sample).1 = none :=
  ⟨((get_next_sample_cases deckPop).1 5 [] rfl).1,
   ((get_next_sample_cases deckSilent).2.1 rfl rfl (by decide)).1,
   ((get_next_sample_cases deckExhausted).2.2.1 rfl rfl rfl (by decide)).2,
   ((get_next_sample_cases deckEnded).2.2.2 rfl rfl).1⟩

end ClaimC6

section ClaimC8

/-- The deck-level operations named by the claim: `load`, `poll_receiver`,
`get_next_sample`, `restart`, the mixer's resets of `samples_played`, plus
the two environment steps of the decoder thread (chunk arrival and channel
close). -/
inductive DeckOp where
  | load (now : ℕ)
  | poll
  | getNext
  | restart
  | arrive (c : List ℚ)
  | closeChan
  | resetPlayed
deriving DecidableEq

def DeckOp.apply (d : Deck) : DeckOp → Deck
  | .load now => d.load now
  | .poll => d.poll_receiver
  | .getNext => (d.get_next_sample).2
  | .restart => d.restart
  | .arrive c => d.arrive c
  | .closeChan => d.closeChan
  | .resetPlayed => { d with samples_played := 0 }

/-- The claimed invariant. -/
def playedInv (d : Deck) : Prop := d.samples_played ≤ d.total_samples_read

theorem foldl_recvChunk_played (l : List (List ℚ)) (d : Deck) :
    (l.foldl Deck.recvChunk d).samples_played = d.samples_played := by
  induction l generalizing d with
  | nil => rfl
  | cons c l ih => simp [List.foldl_cons, ih, Deck.recvChunk]

theorem foldl_recvChunk_total (l : List (List ℚ)) (d : Deck) :
    (l.foldl Deck.recvChunk d).total_samples_read = d.total_samples_read := by
  induction l generalizing d with
  | nil => rfl
  | cons c l ih => simp [List.foldl_cons, ih, Deck.recvChunk]

theorem poll_receiver_played (d : Deck) :
    d.poll_receiver.samples_played = d.samples_played := by
  unfold Deck.poll_receiver
  rcases d.receiver with _ | ch
  · rfl
  · by_cases h : ch.closed = true <;>
      simp [h, foldl_recvChunk_played]

theorem poll_receiver_total (d : Deck) :
    d.poll_receiver.total_samples_read = d.total_samples_read := by
  unfold Deck.poll_receiver
  rcases d.receiver with _ | ch
  · rfl
  · by_cases h : ch.closed = true <;>
      simp [h, foldl_recvChunk_total]

theorem playedInv_apply (d : Deck) (op : DeckOp) (h : playedInv d) :
    playedInv (DeckOp.apply d op) := by
  cases op with
  | load now => simp [DeckOp.apply, Deck.load, playedInv]
  | poll =>
    simp only [DeckOp.apply, playedInv, poll_receiver_played, poll_receiver_total]
    exact h
  | getNext =>
    have h' : playedInv d.poll_receiver := by
      simp only [playedInv, poll_receiver_played, poll_receiver_total]
      exact h
    simp only [DeckOp.apply, Deck.get_next_sample]
    rcases hs : d.poll_receiver.samples with _ | ⟨s, rest⟩
    · simp only [hs]
      by_cases he : d.poll_receiver.has_ended = false
      · by_cases hr : d.poll_receiver.receiver = none ∧ 0 < d.poll_receiver.samples_played
        · simpa [he, hr, playedInv] using h'
        · simp only [he, hr, if_true, if_false, playedInv] at h' ⊢
          omega
      · simpa [he, playedInv] using h'
    · simp only [hs, playedInv] at h' ⊢
      omega
  | restart => simp [DeckOp.apply, Deck.restart, playedInv]
  | arrive c =>
    simp only [DeckOp.apply, Deck.arrive]
    rcases d.receiver with _ | ch
    · exact h
    · exact h
  | closeChan =>
    simp only [DeckOp.apply, Deck.closeChan]
    rcases d.receiver with _ | ch
    · exact h
    · exact h
  | resetPlayed => simp [DeckOp.apply, playedInv]

/-- C8: starting from a fresh deck, every sequence of deck operations (load,
poll_receiver, get_next_sample, restart, the mixer's samples_played resets,
and the decoder-side channel steps) preserves
`samples_played ≤ total_samples_read`; since this holds for every operation
list it holds at every intermediate time as well. -/
theorem samples_played_le_total_samples_read (name : String) (ops : List DeckOp) :
    playedInv (ops.foldl DeckOp.apply (Deck.new name)) := by
  have general : ∀ d, playedInv d → playedInv (ops.foldl DeckOp.apply d) := by
    induction ops with
    | nil => intro d h; exact h
    | cons op ops ih =>
      intro d h
      exact ih _ (playedInv_apply d op h)
  exact general _ (by simp [playedInv, Deck.new])

end ClaimC8

/-! ## Mixer state model (`mixer_loop`) -/

/-- Events written to standard error by `send_log` inside `mixer_loop`.
Lifecycle events keep their payloads; diagnostic `info` / `debug` / `error`
lines are modelled payload-free (no claim inspects their text). -/
inductive Event where
  | info
  | debug
  | error
  | buffer_ready (deck : String)
  | crossfade_started (src tgt : String)
  | deck_changed (deck : String) (trigger : String)
  | approaching_end (deck : String)
  | end_ev (deck : String)
  | auto_end_switch (deck : String)
  | auto_loop_restart (deck : String)
  | deck_restarted (deck : String)
deriving DecidableEq

/-- The mutable state of `mixer_loop`, local variables field for field, plus
the accumulated event log and a `halted` flag modelling `process::exit` on
the `Stop` command. -/
structure MixerState where
  deck_a : Deck
  deck_b : Deck
  active_deck : String
  crossfading : Bool
  crossfade_total : ℕ
  crossfade_left : ℕ
  target_deck : String
  proactive_crossfade_triggered : Bool
  proactive_crossfade_enabled : Bool
  loop_mode : Bool
  buffer_monitor_counter : ℕ
  is_playing : Bool
  buffer_prev_ready_a : Bool
  buffer_prev_ready_b : Bool
  end_sent_a : Bool
  end_sent_b : Bool
  approaching_end_sent_a : Bool
  approaching_end_sent_b : Bool
  pending_transition : Option (String × ℕ × Bool × ℕ)
  auto_gapless_stall : Option (String × ℕ)
  mid_chunk_auto_switch : Option String
  mid_chunk_loop_restart : Bool
  halted : Bool
  log : List Event
deriving DecidableEq

namespace MixerState

/-- Initial state of `mixer_loop` (lines 487–535 of the source). -/
def initial : MixerState where
  deck_a := Deck.new "A"
  deck_b := Deck.new "B"
  active_deck := "A"
  crossfading := false
  crossfade_total := 0
  crossfade_left := 0
  target_deck := ""
  proactive_crossfade_triggered := false
  proactive_crossfade_enabled := true
  loop_mode := false
  buffer_monitor_counter := 0
  is_playing := false
  buffer_prev_ready_a := false
  buffer_prev_ready_b := false
  end_sent_a := false
  end_sent_b := false
  approaching_end_sent_a := false
  approaching_end_sent_b := false
  pending_transition := none
  auto_gapless_stall := none
  mid_chunk_auto_switch := none
  mid_chunk_loop_restart := false
  halted := false
  log := [Event.info]

/-- `send_log`. -/
def emit (st : MixerState) (e : Event) : MixerState :=
  { st with log := st.log ++ [e] }

/-- Read a deck by name the way the source's read sites do (`"A"` selects
deck A, anything else selects deck B). -/
def deckOf (st : MixerState) (name : String) : Deck :=
  if name = "A" then st.deck_a else st.deck_b

/-- `let target_has_audio = if target_deck == "A" { deck_a.samples.len() > 0 }
else { deck_b.samples.len() > 0 }` (line 924). -/
def targetHasAudio (st : MixerState) : Bool :=
  if st.target_deck = "A" then decide (0 < st.deck_a.samples.length)
  else decide (0 < st.deck_b.samples.length)

end MixerState

/-- Which branch the exhausted-deck handling of one chunk slot took:
mid-chunk loop restart, mid-chunk auto-switch, or silence without recovery.
Slots that deliver a normal or crossfaded sample carry no mark. -/
inductive SlotMark where
  | recLoop
  | recSwitch
  | silentExhaust
deriving DecidableEq

/-- Crossfade-completion block of the chunk loop (lines 946–971): clear the
crossfade, reset the source deck's edge latches, zero the target's
`samples_played`, switch `active_deck`, and log
`deck_changed … triggered_by=crossfade_completion`. -/
def crossfadeFinalize (st : MixerState) : MixerState :=
  let st := { st with crossfading := false, proactive_crossfade_triggered := false }
  let st :=
    if st.active_deck = "A" then
      { st with buffer_prev_ready_a := false, end_sent_a := false, approaching_end_sent_a := false }
    else if st.active_deck = "B" then
      { st with buffer_prev_ready_b := false, end_sent_b := false, approaching_end_sent_b := false }
    else st
  let st :=
    if st.target_deck = "A" then { st with deck_a := { st.deck_a with samples_played := 0 } }
    else if st.target_deck = "B" then { st with deck_b := { st.deck_b with samples_played := 0 } }
    else st
  let st := { st with active_deck := st.target_deck }
  (st.emit .info).emit (.deck_changed st.target_deck "crossfade_completion")

/-- The crossfading arm of one chunk slot (lines 922–978).  If the target
deck is starved, consume from the source deck only at full amplitude without
advancing the counter; otherwise consume from both decks, advance the
counter, finalize when it reaches zero, and mix with
`ratio = (crossfade_total - crossfade_left) / crossfade_total` (the final
sample forcing ratio `1.0`).  Note that the source reads `active_deck`
*after* the completion block, exactly as the Rust does. -/
def crossfadeSlot (st : MixerState) : MixerState × ℚ × Option SlotMark :=
  if st.targetHasAudio = false then
    let p :=
      if st.active_deck = "A" then
        let r := st.deck_a.get_next_sample
        ({ st with deck_a := r.2 }, r.1.getD 0)
      else
        let r := st.deck_b.get_next_sample
        ({ st with deck_b := r.2 }, r.1.getD 0)
    (p.1, p.2, none)
  else
    let ra := st.deck_a.get_next_sample
    let rb := st.deck_b.get_next_sample
    let s_a := ra.1.getD 0
    let s_b := rb.1.getD 0
    let r : ℚ := ((st.crossfade_total : ℚ) - (st.crossfade_left : ℚ)) / (st.crossfade_total : ℚ)
    let left1 := st.crossfade_left - 1
    let fr : ℚ := if left1 = 0 then 1 else r
    let st1 := { st with deck_a := ra.2, deck_b := rb.2, crossfade_left := left1 }
    let st2 := if left1 = 0 then crossfadeFinalize st1 else st1
    let src_s := if st2.active_deck = "A" then s_a else s_b
    let tgt_s := if st2.target_deck = "A" then s_a else s_b
    (st2, src_s * (1 - fr) + tgt_s * fr, none)

/-- The non-crossfading arm of one chunk slot (lines 979–1065): consume from
the active deck; on "no sample", attempt the mid-chunk recovery (loop
restart, or auto-switch when the other deck has audio) at most once per
chunk, else output silence. -/
def normalSlot (st : MixerState) : MixerState × ℚ × Option SlotMark :=
  let pr :=
    if st.active_deck = "A" then
      let r := st.deck_a.get_next_sample
      ({ st with deck_a := r.2 }, r.1)
    else
      let r := st.deck_b.get_next_sample
      ({ st with deck_b := r.2 }, r.1)
  let st := pr.1
  match pr.2 with
  | some s => (st, s, none)
  | none =>
    let should_try : Prop :=
      st.crossfading = false ∧ st.pending_transition = none ∧
      st.auto_gapless_stall = none ∧ st.is_playing = true
    let exhausted : Prop :=
      if st.active_deck = "A" then st.deck_a.has_ended = true ∧ st.deck_a.receiver = none
      else st.deck_b.has_ended = true ∧ st.deck_b.receiver = none
    let played_enough : Prop :=
      if st.active_deck = "A" then MIN_SAMPLES_PLAYED_FOR_END ≤ st.deck_a.samples_played
      else MIN_SAMPLES_PLAYED_FOR_END ≤ st.deck_b.samples_played
    if should_try ∧ exhausted ∧ played_enough ∧ st.mid_chunk_auto_switch = none then
      if st.loop_mode = true then
        let st :=
          if st.active_deck = "A" then
            { st with deck_a := st.deck_a.restart, approaching_end_sent_a := false }
          else
            { st with deck_b := st.deck_b.restart, approaching_end_sent_b := false }
        let st := { st with mid_chunk_loop_restart := true }
        let q :=
          if st.active_deck = "A" then
            let r := st.deck_a.get_next_sample
            ({ st with deck_a := r.2 }, r.1.getD 0)
          else
            let r := st.deck_b.get_next_sample
            ({ st with deck_b := r.2 }, r.1.getD 0)
        (q.1, q.2, some .recLoop)
      else
        let other := if st.active_deck = "A" then "B" else "A"
        if (if other = "A" then 0 < st.deck_a.samples.length else 0 < st.deck_b.samples.length) then
          let st :=
            if st.active_deck = "A" then
              { st with deck_a := Deck.new "A", buffer_prev_ready_a := false,
                        approaching_end_sent_a := false }
            else
              { st with deck_b := Deck.new "B", buffer_prev_ready_b := false,
                        approaching_end_sent_b := false }
          let st := { st with active_deck := other }
          let st :=
            if other = "A" then { st with deck_a := { st.deck_a with samples_played := 0 } }
            else { st with deck_b := { st.deck_b with samples_played := 0 } }
          let st := { st with mid_chunk_auto_switch := some other }
          let q :=
            if st.active_deck = "A" then
              let r := st.deck_a.get_next_sample
              ({ st with deck_a := r.2 }, r.1.getD 0)
            else
              let r := st.deck_b.get_next_sample
              ({ st with deck_b := r.2 }, r.1.getD 0)
          (q.1, q.2, some .recSwitch)
        else (st, 0, some .silentExhaust)
    else (st, 0, some .silentExhaust)

/-- One interleaved slot of the chunk-synthesis loop (the body of
`for _ in 0..CHUNK_SIZE`). -/
def mixSlot (st : MixerState) : MixerState × ℚ × Option SlotMark :=
  if st.crossfading = true then crossfadeSlot st else normalSlot st

/-- Run `n` consecutive chunk-synthesis slots, collecting the emitted
samples and the per-slot marks in order. -/
def runSlots : MixerState → ℕ → MixerState × List ℚ × List (Option SlotMark)
  | st, 0 => (st, [], [])
  | st, n + 1 =>
    let p := mixSlot st
    let q := runSlots p.1 n
    (q.1, p.2.1 :: q.2.1, p.2.2 :: q.2.2)

/-- The full 960-slot chunk-synthesis loop, including the reset of the
mid-chunk flags that precedes it (lines 917–919). -/
def chunkSynth (st : MixerState) : MixerState × List ℚ × List (Option SlotMark) :=
  runSlots { st with mid_chunk_auto_switch := none, mid_chunk_loop_restart := false } CHUNK_SIZE

/-! ## Iterated sample consumption on a single deck -/

namespace Deck

/-- The deck after `k` successive calls to `get_next_sample`. -/
def popN (d : Deck) : ℕ → Deck
  | 0 => d
  | k + 1 => ((d.popN k).get_next_sample).2

/-- The value delivered by the `(k+1)`-st call to `get_next_sample`
(`0` when the call yields no sample, matching the mixer's `unwrap_or(0.0)`). -/
def popOut (d : Deck) (k : ℕ) : ℚ := ((d.popN k).get_next_sample).1.getD 0

theorem get_next_sample_cons {d : Deck} (hq : d.quiescent) {s : ℚ} {rest : List ℚ}
    (h : d.samples = s :: rest) :
    d.get_next_sample =
      (some s, { d with
        samples := rest
        buffer_level := d.buffer_level - 1
        total_samples_read := d.total_samples_read + 1
        samples_played := d.samples_played + 1 }) := by
  simp only [Deck.get_next_sample, poll_receiver_quiescent hq, h]

theorem gns_receiver (d : Deck) :
    (d.get_next_sample).2.receiver = d.poll_receiver.receiver := by
  unfold Deck.get_next_sample
  rcases h : d.poll_receiver.samples with _ | ⟨s, rest⟩
  · simp only [h]
    by_cases he : d.poll_receiver.has_ended = false
    · by_cases hr : d.poll_receiver.receiver = none ∧ 0 < d.poll_receiver.samples_played
      · simp [he, hr]
      · simp [he, hr]
    · simp [he]
  · simp [h]

theorem quiescent_gns {d : Deck} (hq : d.quiescent) :
    (d.get_next_sample).2.quiescent := by
  unfold Deck.quiescent
  rw [gns_receiver, poll_receiver_quiescent hq]
  exact hq

theorem popN_succ_front (d : Deck) (k : ℕ) :
    d.popN (k + 1) = ((d.get_next_sample).2).popN k := by
  induction k with
  | zero => rfl
  | succ k ih =>
    show ((d.popN (k + 1)).get_next_sample).2 = _
    rw [ih]
    rfl

theorem popOut_succ_front (d : Deck) (k : ℕ) :
    d.popOut (k + 1) = ((d.get_next_sample).2).popOut k := by
  unfold Deck.popOut
  rw [popN_succ_front]

theorem popN_quiescent {d : Deck} (hq : d.quiescent) (k : ℕ) :
    (d.popN k).quiescent := by
  induction k with
  | zero => exact hq
  | succ k ih => exact quiescent_gns ih

theorem popN_samples {d : Deck} (hq : d.quiescent) :
    ∀ k, k ≤ d.samples.length → (d.popN k).samples = d.samples.drop k := by
  intro k
  induction k with
  | zero => intro _; rfl
  | succ k ih =>
    intro hk
    have hklt : k < d.samples.length := Nat.lt_of_succ_le hk
    have hs := ih (Nat.le_of_lt hklt)
    have hcons : (d.popN k).samples = d.samples[k] :: d.samples.drop (k + 1) := by
      rw [hs, List.drop_eq_getElem_cons hklt]
    have hq' := popN_quiescent hq k
    show ((d.popN k).get_next_sample).2.samples = _
    rw [get_next_sample_cons hq' hcons]

theorem popOut_eq_getD {d : Deck} (hq : d.quiescent) {k : ℕ}
    (hk : k < d.samples.length) :
    d.popOut k = d.samples.getD k 0 := by
  have hcons : (d.popN k).samples = d.samples[k] :: d.samples.drop (k + 1) := by
    rw [popN_samples hq k (Nat.le_of_lt hk), List.drop_eq_getElem_cons hk]
  unfold Deck.popOut
  rw [get_next_sample_cons (popN_quiescent hq k) hcons]
  simp [List.getD, List.getElem?_eq_getElem hk]

theorem popN_samples_length {d : Deck} (hq : d.quiescent) {k : ℕ}
    (hk : k ≤ d.samples.length) :
    (d.popN k).samples.length = d.samples.length - k := by
  rw [popN_samples hq k hk, List.length_drop]

end Deck

section ClaimC2

/-- C2: during a crossfade, at a slot where the target deck has zero queued
samples the output equals the sample consumed from the source (active) deck
at full amplitude, the target deck is left untouched, `crossfade_left` is not
decremented and the crossfade stays in progress; conversely the counter
advances only on slots where the target deck has at least one queued
sample. -/
theorem crossfade_starved_slot (st : MixerState)
    (hcf : st.crossfading = true)
    (hroles : (st.active_deck = "A" ∧ st.target_deck = "B") ∨
              (st.active_deck = "B" ∧ st.target_deck = "A")) :
    ((st.deckOf st.target_deck).samples = [] →
      (mixSlot st).2.1 = ((st.deckOf st.active_deck).get_next_sample).1.getD 0 ∧
      (mixSlot st).1.crossfade_left = st.crossfade_left ∧
      (mixSlot st).1.crossfading = true ∧
      (mixSlot st).1.deckOf st.target_deck = st.deckOf st.target_deck ∧
      (mixSlot st).1.deckOf st.active_deck = ((st.deckOf st.active_deck).get_next_sample).2) ∧
    ((mixSlot st).1.crossfade_left < st.crossfade_left →
      (st.deckOf st.target_deck).samples ≠ []) := by
  have main : (st.deckOf st.target_deck).samples = [] →
      (mixSlot st).2.1 = ((st.deckOf st.active_deck).get_next_sample).1.getD 0 ∧
      (mixSlot st).1.crossfade_left = st.crossfade_left ∧
      (mixSlot st).1.crossfading = true ∧
      (mixSlot st).1.deckOf st.target_deck = st.deckOf st.target_deck ∧
      (mixSlot st).1.deckOf st.active_deck = ((st.deckOf st.active_deck).get_next_sample).2 := by
    intro hempty
    rcases hroles with ⟨ha, ht⟩ | ⟨ha, ht⟩
    · have hempty' : st.deck_b.samples = [] := by
        simpa [MixerState.deckOf, ht] using hempty
      have hstarve : st.targetHasAudio = false := by
        simp [MixerState.targetHasAudio, ht, hempty']
      simp [mixSlot, hcf, crossfadeSlot, hstarve, ha, ht, MixerState.deckOf]
    · have hempty' : st.deck_a.samples = [] := by
        simpa [MixerState.deckOf, ht] using hempty
      have hstarve : st.targetHasAudio = false := by
        simp [MixerState.targetHasAudio, ht, hempty']
      simp [mixSlot, hcf, crossfadeSlot, hstarve, ha, ht, MixerState.deckOf]
  refine ⟨main, ?_⟩
  intro hlt
  by_cases hempty : (st.deckOf st.target_deck).samples = []
  · exact absurd ((main hempty).2.1 ▸ hlt) (lt_irrefl _)
  · exact hempty

end ClaimC2

/-! ## Claim C1: a crossfade emits exactly `crossfade_total` mixed samples -/

/-- The ratio used at the `i`-th (0-based) mixed sample of a crossfade that
still has `L` samples to go out of `crossfade_total = N`: at that sample
`crossfade_left = L - i`, so `(crossfade_total - crossfade_left) /
crossfade_total = (N - (L - i)) / N`, except that the very last mixed sample
(`i = L - 1`) forces ratio `1.0`. -/
def cfRatioQ (N L i : ℕ) : ℚ :=
  if i = L - 1 then 1 else ((N : ℚ) - ((L - i : ℕ) : ℚ)) / (N : ℚ)

theorem cfRatioQ_shift {k : ℕ} (hk : 1 ≤ k) (N i : ℕ) :
    cfRatioQ N k i = cfRatioQ N (k + 1) (i + 1) := by
  unfold cfRatioQ
  have h1 : (i = k - 1) ↔ (i + 1 = k) := by omega
  by_cases h : i = k - 1
  · subst h
    have h4 : k - 1 + 1 = k + 1 - 1 := by omega
    rw [if_pos rfl, if_pos h4]
  · have h2 : ¬(i + 1 = k) := fun hh => h (h1.mpr hh)
    have h3 : k + 1 - (i + 1) = k - i := by omega
    simp [h, h2, h3]

theorem targetHasAudio_of_B {st : MixerState} (ht : st.target_deck = "B")
    (h : 0 < st.deck_b.samples.length) : st.targetHasAudio = true := by
  simp [MixerState.targetHasAudio, ht, h]

theorem targetHasAudio_of_A {st : MixerState} (ht : st.target_deck = "A")
    (h : 0 < st.deck_a.samples.length) : st.targetHasAudio = true := by
  simp [MixerState.targetHasAudio, ht, h]

/-- A non-final mixed crossfade slot with active deck A and target deck B. -/
theorem mixSlot_mixed_AB_step (st : MixerState)
    (hcf : st.crossfading = true) (ha : st.active_deck = "A") (ht : st.target_deck = "B")
    (hne : 0 < st.deck_b.samples.length) (hL1 : st.crossfade_left - 1 ≠ 0) :
    mixSlot st =
      ({ st with
          deck_a := (st.deck_a.get_next_sample).2
          deck_b := (st.deck_b.get_next_sample).2
          crossfade_left := st.crossfade_left - 1 },
       (st.deck_a.get_next_sample).1.getD 0 *
          (1 - ((st.crossfade_total : ℚ) - (st.crossfade_left : ℚ)) / (st.crossfade_total : ℚ)) +
        (st.deck_b.get_next_sample).1.getD 0 *
          (((st.crossfade_total : ℚ) - (st.crossfade_left : ℚ)) / (st.crossfade_total : ℚ)),
       none) := by
  have hta := targetHasAudio_of_B ht hne
  simp [mixSlot, hcf, crossfadeSlot, hta, hL1, ha, ht]

/-- The final mixed crossfade slot (`crossfade_left = 1`) with active deck A
and target deck B: the counter reaches zero, ratio is forced to `1.0`, the
crossfade is finalized and the output equals the target sample. -/
theorem mixSlot_mixed_AB_final (st : MixerState)
    (hcf : st.crossfading = true) (ha : st.active_deck = "A") (ht : st.target_deck = "B")
    (hne : 0 < st.deck_b.samples.length) (hL1 : st.crossfade_left = 1) :
    mixSlot st =
      ({ st with
          deck_a := (st.deck_a.get_next_sample).2
          deck_b := { (st.deck_b.get_next_sample).2 with samples_played := 0 }
          crossfade_left := 0
          crossfading := false
          proactive_crossfade_triggered := false
          buffer_prev_ready_a := false
          end_sent_a := false
          approaching_end_sent_a := false
          active_deck := "B"
          log := st.log ++ [.info, .deck_changed "B" "crossfade_completion"] },
       (st.deck_b.get_next_sample).1.getD 0,
       none) := by
  have hta := targetHasAudio_of_B ht hne
  simp [mixSlot, hcf, crossfadeSlot, hta, hL1, crossfadeFinalize, MixerState.emit, ha, ht]

/-- Full-run characterization of an uninterrupted crossfade with active A
and target B: running `crossfade_left = L` slots pops both decks `L` times,
finalizes the crossfade, and emits the claimed mixed outputs. -/
theorem c1_run_AB (N : ℕ) :
    ∀ (L : ℕ) (st : MixerState),
      st.crossfading = true → st.active_deck = "A" → st.target_deck = "B" →
      st.crossfade_total = N → st.crossfade_left = L →
      1 ≤ L → L ≤ N →
      st.deck_a.quiescent → st.deck_b.quiescent →
      L ≤ st.deck_b.samples.length →
      runSlots st L =
        ({ st with
            deck_a := st.deck_a.popN L
            deck_b := { st.deck_b.popN L with samples_played := 0 }
            crossfade_left := 0
            crossfading := false
            proactive_crossfade_triggered := false
            buffer_prev_ready_a := false
            end_sent_a := false
            approaching_end_sent_a := false
            active_deck := "B"
            log := st.log ++ [.info, .deck_changed "B" "crossfade_completion"] },
         List.ofFn (fun i : Fin L =>
           st.deck_a.popOut i * (1 - cfRatioQ N L i) +
           st.deck_b.popOut i * cfRatioQ N L i),
         List.replicate L (none : Option SlotMark)) := by
  intro L
  induction L with
  | zero => intro st _ _ _ _ _ h1 _ _ _ _; omega
  | succ k ih =>
    intro st hcf ha ht hT hL h1 hLN hqa hqb hlen
    by_cases hk : k = 0
    · subst hk
      have hne : 0 < st.deck_b.samples.length := by omega
      have hfin := mixSlot_mixed_AB_final st hcf ha ht hne (by omega)
      show (let p := mixSlot st
            let q := runSlots p.1 0
            (q.1, p.2.1 :: q.2.1, p.2.2 :: q.2.2)) = _
      rw [hfin]
      simp only [runSlots, Prod.mk.injEq]
      refine ⟨rfl, ?_, rfl⟩
      have hr : cfRatioQ N 1 0 = 1 := by simp [cfRatioQ]
      simp [List.ofFn_succ, hr, Deck.popOut, Deck.popN]
    · have hk1 : 1 ≤ k := Nat.one_le_iff_ne_zero.mpr hk
      have hne : 0 < st.deck_b.samples.length := by omega
      have hstep := mixSlot_mixed_AB_step st hcf ha ht hne (by omega)
      have hun : runSlots st (k + 1) =
          (let p := mixSlot st
           let q := runSlots p.1 k
           (q.1, p.2.1 :: q.2.1, p.2.2 :: q.2.2)) := rfl
      rw [hun, hstep]
      dsimp only
      have hlen1 : k ≤ ((st.deck_b.get_next_sample).2).samples.length := by
        have : ((st.deck_b.get_next_sample).2).samples.length =
            st.deck_b.samples.length - 1 := by
          have h1' : (st.deck_b.popN 1).samples.length = st.deck_b.samples.length - 1 :=
            Deck.popN_samples_length hqb (by omega)
          simpa [Deck.popN] using h1'
        omega
      have hrec := ih
        { st with
            deck_a := (st.deck_a.get_next_sample).2
            deck_b := (st.deck_b.get_next_sample).2
            crossfade_left := st.crossfade_left - 1 }
        hcf ha ht hT (by simp [hL]) hk1 (by omega)
        (Deck.quiescent_gns hqa) (Deck.quiescent_gns hqb) hlen1
      rw [hrec]
      dsimp only
      simp only [Prod.mk.injEq]
      refine ⟨?_, ?_, rfl⟩
      · rw [← Deck.popN_succ_front, ← Deck.popN_succ_front]
      · rw [List.ofFn_succ]
        congr 1
        · simp only [Fin.val_zero]
          have hr0 : cfRatioQ N (k + 1) 0 = ((N : ℚ) - ((k + 1 : ℕ) : ℚ)) / (N : ℚ) := by
            have h0 : ¬ ((0 : ℕ) = k + 1 - 1) := by omega
            rw [cfRatioQ, if_neg h0]
            norm_num
          rw [hT, hL, hr0]
          simp [Deck.popOut, Deck.popN]
        · congr 1
          funext i
          rw [← Deck.popOut_succ_front, ← Deck.popOut_succ_front, cfRatioQ_shift hk1]
          simp [Fin.val_succ]

/-- A non-final mixed crossfade slot with active deck B and target deck A. -/
theorem mixSlot_mixed_BA_step (st : MixerState)
    (hcf : st.crossfading = true) (ha : st.active_deck = "B") (ht : st.target_deck = "A")
    (hne : 0 < st.deck_a.samples.length) (hL1 : st.crossfade_left - 1 ≠ 0) :
    mixSlot st =
      ({ st with
          deck_a := (st.deck_a.get_next_sample).2
          deck_b := (st.deck_b.get_next_sample).2
          crossfade_left := st.crossfade_left - 1 },
       (st.deck_b.get_next_sample).1.getD 0 *
          (1 - ((st.crossfade_total : ℚ) - (st.crossfade_left : ℚ)) / (st.crossfade_total : ℚ)) +
        (st.deck_a.get_next_sample).1.getD 0 *
          (((st.crossfade_total : ℚ) - (st.crossfade_left : ℚ)) / (st.crossfade_total : ℚ)),
       none) := by
  have hta := targetHasAudio_of_A ht hne
  simp [mixSlot, hcf, crossfadeSlot, hta, hL1, ha, ht]

/-- The final mixed crossfade slot with active deck B and target deck A. -/
theorem mixSlot_mixed_BA_final (st : MixerState)
    (hcf : st.crossfading = true) (ha : st.active_deck = "B") (ht : st.target_deck = "A")
    (hne : 0 < st.deck_a.samples.length) (hL1 : st.crossfade_left = 1) :
    mixSlot st =
      ({ st with
          deck_a := { (st.deck_a.get_next_sample).2 with samples_played := 0 }
          deck_b := (st.deck_b.get_next_sample).2
          crossfade_left := 0
          crossfading := false
          proactive_crossfade_triggered := false
          buffer_prev_ready_b := false
          end_sent_b := false
          approaching_end_sent_b := false
          active_deck := "A"
          log := st.log ++ [.info, .deck_changed "A" "crossfade_completion"] },
       (st.deck_a.get_next_sample).1.getD 0,
       none) := by
  have hta := targetHasAudio_of_A ht hne
  simp [mixSlot, hcf, crossfadeSlot, hta, hL1, crossfadeFinalize, MixerState.emit, ha, ht]

/-- Full-run characterization of an uninterrupted crossfade with active B
and target A. -/
theorem c1_run_BA (N : ℕ) :
    ∀ (L : ℕ) (st : MixerState),
      st.crossfading = true → st.active_deck = "B" → st.target_deck = "A" →
      st.crossfade_total = N → st.crossfade_left = L →
      1 ≤ L → L ≤ N →
      st.deck_a.quiescent → st.deck_b.quiescent →
      L ≤ st.deck_a.samples.length →
      runSlots st L =
        ({ st with
            deck_a := { st.deck_a.popN L with samples_played := 0 }
            deck_b := st.deck_b.popN L
            crossfade_left := 0
            crossfading := false
            proactive_crossfade_triggered := false
            buffer_prev_ready_b := false
            end_sent_b := false
            approaching_end_sent_b := false
            active_deck := "A"
            log := st.log ++ [.info, .deck_changed "A" "crossfade_completion"] },
         List.ofFn (fun i : Fin L =>
           st.deck_b.popOut i * (1 - cfRatioQ N L i) +
           st.deck_a.popOut i * cfRatioQ N L i),
         List.replicate L (none : Option SlotMark)) := by
  intro L
  induction L with
  | zero => intro st _ _ _ _ _ h1 _ _ _ _; omega
  | succ k ih =>
    intro st hcf ha ht hT hL h1 hLN hqa hqb hlen
    by_cases hk : k = 0
    · subst hk
      have hne : 0 < st.deck_a.samples.length := by omega
      have hfin := mixSlot_mixed_BA_final st hcf ha ht hne (by omega)
      show (let p := mixSlot st
            let q := runSlots p.1 0
            (q.1, p.2.1 :: q.2.1, p.2.2 :: q.2.2)) = _
      rw [hfin]
      simp only [runSlots, Prod.mk.injEq]
      refine ⟨rfl, ?_, rfl⟩
      have hr : cfRatioQ N 1 0 = 1 := by simp [cfRatioQ]
      simp [List.ofFn_succ, hr, Deck.popOut, Deck.popN]
    · have hk1 : 1 ≤ k := Nat.one_le_iff_ne_zero.mpr hk
      have hne : 0 < st.deck_a.samples.length := by omega
      have hstep := mixSlot_mixed_BA_step st hcf ha ht hne (by omega)
      have hun : runSlots st (k + 1) =
          (let p := mixSlot st
           let q := runSlots p.1 k
           (q.1, p.2.1 :: q.2.1, p.2.2 :: q.2.2)) := rfl
      rw [hun, hstep]
      dsimp only
      have hlen1 : k ≤ ((st.deck_a.get_next_sample).2).samples.length := by
        have h1' : (st.deck_a.popN 1).samples.length = st.deck_a.samples.length - 1 :=
          Deck.popN_samples_length hqa (by omega)
        have : ((st.deck_a.get_next_sample).2).samples.length =
            st.deck_a.samples.length - 1 := by simpa [Deck.popN] using h1'
        omega
      have hrec := ih
        { st with
            deck_a := (st.deck_a.get_next_sample).2
            deck_b := (st.deck_b.get_next_sample).2
            crossfade_left := st.crossfade_left - 1 }
        hcf ha ht hT (by simp [hL]) hk1 (by omega)
        (Deck.quiescent_gns hqa) (Deck.quiescent_gns hqb) hlen1
      rw [hrec]
      dsimp only
      simp only [Prod.mk.injEq]
      refine ⟨?_, ?_, rfl⟩
      · rw [← Deck.popN_succ_front, ← Deck.popN_succ_front]
      · rw [List.ofFn_succ]
        congr 1
        · simp only [Fin.val_zero]
          have hr0 : cfRatioQ N (k + 1) 0 = ((N : ℚ) - ((k + 1 : ℕ) : ℚ)) / (N : ℚ) := by
            have h0 : ¬ ((0 : ℕ) = k + 1 - 1) := by omega
            rw [cfRatioQ, if_neg h0]
            norm_num
          rw [hT, hL, hr0]
          simp [Deck.popOut, Deck.popN]
        · congr 1
          funext i
          rw [← Deck.popOut_succ_front, ← Deck.popOut_succ_front, cfRatioQ_shift hk1]
          simp [Fin.val_succ]

/-- Prefix characterization of an uninterrupted crossfade (active A,
target B): after `k < crossfade_left` slots, both decks have been popped `k`
times, the crossfade is still in progress and the counter reads `L - k`. -/
theorem c1_mid_AB : ∀ (k L : ℕ) (st : MixerState),
    st.crossfading = true → st.active_deck = "A" → st.target_deck = "B" →
    st.crossfade_left = L →
    k < L →
    st.deck_a.quiescent → st.deck_b.quiescent →
    L ≤ st.deck_b.samples.length →
    (runSlots st k).1 =
      { st with
          deck_a := st.deck_a.popN k
          deck_b := st.deck_b.popN k
          crossfade_left := L - k } := by
  intro k
  induction k with
  | zero =>
    intro L st hcf ha ht hL hk hqa hqb hlen
    subst hL
    rfl
  | succ k ih =>
    intro L st hcf ha ht hL hk hqa hqb hlen
    have hne : 0 < st.deck_b.samples.length := by omega
    have hstep := mixSlot_mixed_AB_step st hcf ha ht hne (by omega)
    have hun : runSlots st (k + 1) =
        (let p := mixSlot st
         let q := runSlots p.1 k
         (q.1, p.2.1 :: q.2.1, p.2.2 :: q.2.2)) := rfl
    rw [hun, hstep]
    dsimp only
    have hlen1 : L - 1 ≤ ((st.deck_b.get_next_sample).2).samples.length := by
      have h1' : (st.deck_b.popN 1).samples.length = st.deck_b.samples.length - 1 :=
        Deck.popN_samples_length hqb (by omega)
      have : ((st.deck_b.get_next_sample).2).samples.length =
          st.deck_b.samples.length - 1 := by simpa [Deck.popN] using h1'
      omega
    have hrec := ih (L - 1)
      { st with
          deck_a := (st.deck_a.get_next_sample).2
          deck_b := (st.deck_b.get_next_sample).2
          crossfade_left := st.crossfade_left - 1 }
      hcf ha ht (by simp [hL]) (by omega)
      (Deck.quiescent_gns hqa) (Deck.quiescent_gns hqb) hlen1
    rw [hrec]
    dsimp only
    rw [← Deck.popN_succ_front, ← Deck.popN_succ_front]
    have h5 : L - 1 - k = L - (k + 1) := by omega
    rw [h5]

/-- Prefix characterization lemma, role B to A. -/
theorem c1_mid_BA : ∀ (k L : ℕ) (st : MixerState),
    st.crossfading = true → st.active_deck = "B" → st.target_deck = "A" →
    st.crossfade_left = L →
    k < L →
    st.deck_a.quiescent → st.deck_b.quiescent →
    L ≤ st.deck_a.samples.length →
    (runSlots st k).1 =
      { st with
          deck_a := st.deck_a.popN k
          deck_b := st.deck_b.popN k
          crossfade_left := L - k } := by
  intro k
  induction k with
  | zero =>
    intro L st hcf ha ht hL hk hqa hqb hlen
    subst hL
    rfl
  | succ k ih =>
    intro L st hcf ha ht hL hk hqa hqb hlen
    have hne : 0 < st.deck_a.samples.length := by omega
    have hstep := mixSlot_mixed_BA_step st hcf ha ht hne (by omega)
    have hun : runSlots st (k + 1) =
        (let p := mixSlot st
         let q := runSlots p.1 k
         (q.1, p.2.1 :: q.2.1, p.2.2 :: q.2.2)) := rfl
    rw [hun, hstep]
    dsimp only
    have hlen1 : L - 1 ≤ ((st.deck_a.get_next_sample).2).samples.length := by
      have h1' : (st.deck_a.popN 1).samples.length = st.deck_a.samples.length - 1 :=
        Deck.popN_samples_length hqa (by omega)
      have : ((st.deck_a.get_next_sample).2).samples.length =
          st.deck_a.samples.length - 1 := by simpa [Deck.popN] using h1'
      omega
    have hrec := ih (L - 1)
      { st with
          deck_a := (st.deck_a.get_next_sample).2
          deck_b := (st.deck_b.get_next_sample).2
          crossfade_left := st.crossfade_left - 1 }
      hcf ha ht (by simp [hL]) (by omega)
      (Deck.quiescent_gns hqa) (Deck.quiescent_gns hqb) hlen1
    rw [hrec]
    dsimp only
    rw [← Deck.popN_succ_front, ← Deck.popN_succ_front]
    have h5 : L - 1 - k = L - (k + 1) := by omega
    rw [h5]

section ClaimC1

/-- C1: for every crossfade started with `crossfade_total = N` (toward either
deck), in the absence of target starvation (the target deck holds at least
`N` queued samples; quiescent channels), the chunk-synthesis loop emits
exactly `N` mixed samples — the crossfade is still in progress with
`crossfade_left = N - k` before each of the `N` slots and ends exactly at the
`N`-th.  The `i`-th output is
`source_sample * (1 - r) + target_sample * r` with
`r = cfRatioQ N N i = (crossfade_total - crossfade_left) / crossfade_total`
(`crossfade_left = N - i` at that sample) and the final sample forcing
`r = 1.0` exactly.  At the final sample `active_deck` becomes the target, the
target deck's `samples_played` is zeroed, and `deck_changed` is emitted. -/
theorem crossfade_emits_exactly_total (st : MixerState) (N : ℕ)
    (hcf : st.crossfading = true)
    (hroles : (st.active_deck = "A" ∧ st.target_deck = "B") ∨
              (st.active_deck = "B" ∧ st.target_deck = "A"))
    (hT : st.crossfade_total = N) (hL : st.crossfade_left = N) (hN : 1 ≤ N)
    (hqa : st.deck_a.quiescent) (hqb : st.deck_b.quiescent)
    (hlen : N ≤ (st.deckOf st.target_deck).samples.length) :
    (∀ k, k < N → (runSlots st k).1.crossfading = true ∧
                  (runSlots st k).1.crossfade_left = N - k) ∧
    (runSlots st N).1.crossfading = false ∧
    (runSlots st N).1.crossfade_left = 0 ∧
    (runSlots st N).1.active_deck = st.target_deck ∧
    ((runSlots st N).1.deckOf st.target_deck).samples_played = 0 ∧
    (runSlots st N).1.log =
      st.log ++ [.info, .deck_changed st.target_deck "crossfade_completion"] ∧
    (runSlots st N).2.1 = List.ofFn (fun i : Fin N =>
      (st.deckOf st.active_deck).popOut i * (1 - cfRatioQ N N i) +
      ((st.deckOf st.target_deck).samples.getD i 0) * cfRatioQ N N i) := by
  rcases hroles with ⟨ha, ht⟩ | ⟨ha, ht⟩
  · have hlen' : N ≤ st.deck_b.samples.length := by
      simpa [MixerState.deckOf, ht] using hlen
    have hrun := c1_run_AB N N st hcf ha ht hT hL hN le_rfl hqa hqb hlen'
    refine ⟨?_, ?_⟩
    · intro k hk
      have hmid := c1_mid_AB k N st hcf ha ht hL hk hqa hqb hlen'
      rw [hmid]
      exact ⟨hcf, rfl⟩
    · rw [hrun]
      refine ⟨rfl, rfl, ht.symm, ?_, ?_, ?_⟩
      · simp [MixerState.deckOf, ht]
      · rw [ht]
      · have hdA : st.deckOf st.active_deck = st.deck_a := by
          simp [MixerState.deckOf, ha]
        have hdB : st.deckOf st.target_deck = st.deck_b := by
          simp [MixerState.deckOf, ht]
        rw [hdA, hdB]
        dsimp only
        congr 1
        funext i
        rw [Deck.popOut_eq_getD hqb (lt_of_lt_of_le i.isLt hlen')]
  · have hlen' : N ≤ st.deck_a.samples.length := by
      simpa [MixerState.deckOf, ht] using hlen
    have hrun := c1_run_BA N N st hcf ha ht hT hL hN le_rfl hqa hqb hlen'
    refine ⟨?_, ?_⟩
    · intro k hk
      have hmid := c1_mid_BA k N st hcf ha ht hL hk hqa hqb hlen'
      rw [hmid]
      exact ⟨hcf, rfl⟩
    · rw [hrun]
      refine ⟨rfl, rfl, ht.symm, ?_, ?_, ?_⟩
      · simp [MixerState.deckOf, ht]
      · rw [ht]
      · have hdB : st.deckOf st.active_deck = st.deck_b := by
          simp [MixerState.deckOf, ha]
        have hdA : st.deckOf st.target_deck = st.deck_a := by
          simp [MixerState.deckOf, ht]
        rw [hdB, hdA]
        dsimp only
        congr 1
        funext i
        rw [Deck.popOut_eq_getD hqa (lt_of_lt_of_le i.isLt hlen')]

/-- Concrete crossfading state: A active, fading to B over 2 samples, B
holding 2 queued samples. -/
def c1WitnessState : MixerState :=
  { MixerState.initial with
      crossfading := true
      active_deck := "A"
      target_deck := "B"
      crossfade_total := 2
      crossfade_left := 2
      deck_b := { Deck.new "B" with samples := [1, 1] } }

/-- C1 witness: after exactly 2 slots the crossfade has completed onto B. -/
theorem crossfade_emits_exactly_total_witness :
    (runSlots c1WitnessState 2).1.active_deck = "B" :=
  (crossfade_emits_exactly_total c1WitnessState 2 rfl (Or.inl ⟨rfl, rfl⟩) rfl rfl
    (by norm_num) (Or.inl rfl) (Or.inl rfl) (by decide)).2.2.2.1

end ClaimC1

/-! ## Proactive crossfade trigger, approaching-end, post-chunk handling -/

namespace MixerState

/-- `current_buffer_len` at the proactive-trigger site (line 887). -/
def activeLen (st : MixerState) : ℕ :=
  if st.active_deck = "A" then st.deck_a.samples.length else st.deck_b.samples.length

/-- `target_deck_obj` at the proactive-trigger site (line 888). -/
def otherDeck (st : MixerState) : Deck :=
  if st.active_deck = "A" then st.deck_b else st.deck_a

/-- `target_deck_name` at the proactive-trigger site (line 889). -/
def otherName (st : MixerState) : String :=
  if st.active_deck = "A" then "B" else "A"

end MixerState

/-- Proactive crossfade trigger (lines 886–909): when not crossfading, no
proactive trigger pending, playing, and proactive crossfade enabled, if the
active deck's queued count has fallen below `SAMPLE_RATE * CHANNELS * 3` and
the other deck is ready-for-crossfade, start a 6-second
(`SAMPLE_RATE * CHANNELS * 6` samples) crossfade toward the other deck, set
`proactive_crossfade_triggered`, and emit `crossfade_started`. -/
def proactiveTrigger (st : MixerState) : MixerState :=
  if st.crossfading = false ∧ st.proactive_crossfade_triggered = false ∧
     st.is_playing = true ∧ st.proactive_crossfade_enabled = true then
    if st.activeLen < SAMPLE_RATE * CHANNELS * 3 ∧
       st.otherDeck.is_ready_for_crossfade = true then
      let st1 := st.emit .info
      let st2 := { st1 with
        crossfading := true
        target_deck := st.otherName
        crossfade_total := SAMPLE_RATE * CHANNELS * 6
        crossfade_left := SAMPLE_RATE * CHANNELS * 6
        proactive_crossfade_triggered := true }
      st2.emit (.crossfade_started st.active_deck st.otherName)
    else st
  else st

/-- Approaching-end detection after the chunk (lines 1082–1097). -/
def approachingEndCheck (st : MixerState) : MixerState :=
  if st.is_playing = true ∧ st.crossfading = false then
    let st :=
      if st.active_deck = "A" ∧ st.deck_a.has_ended = true ∧ st.deck_a.receiver = none ∧
         st.approaching_end_sent_a = false ∧
         st.deck_a.samples.length < APPROACHING_END_THRESHOLD then
        { st.emit (.approaching_end "A") with approaching_end_sent_a := true }
      else st
    if st.active_deck = "B" ∧ st.deck_b.has_ended = true ∧ st.deck_b.receiver = none ∧
       st.approaching_end_sent_b = false ∧
       st.deck_b.samples.length < APPROACHING_END_THRESHOLD then
      { st.emit (.approaching_end "B") with approaching_end_sent_b := true }
    else st
  else st

/-- Post-chunk auto-gapless end handling (lines 1127–1228): on a fully
silent chunk, with no crossfade / pending transition / stall and playback
on, if the active deck has ended with a detached receiver, has played at
least `MIN_SAMPLES_PLAYED_FOR_END` samples and `end_sent` is not yet latched:
latch it, then loop-restart, auto-switch, stall, or emit `end`. -/
def postChunkEnd (st : MixerState) (hasAudio : Bool) (now : ℕ) : MixerState :=
  if hasAudio = false ∧ st.crossfading = false ∧ st.is_playing = true ∧
     st.pending_transition = none ∧ st.auto_gapless_stall = none then
    if (if st.active_deck = "A" then
          st.deck_a.has_ended = true ∧ st.deck_a.receiver = none ∧
          MIN_SAMPLES_PLAYED_FOR_END ≤ st.deck_a.samples_played ∧ st.end_sent_a = false
        else
          st.deck_b.has_ended = true ∧ st.deck_b.receiver = none ∧
          MIN_SAMPLES_PLAYED_FOR_END ≤ st.deck_b.samples_played ∧ st.end_sent_b = false) then
      let st :=
        if st.active_deck = "A" then { st with end_sent_a := true }
        else { st with end_sent_b := true }
      if st.loop_mode = true then
        let st :=
          if st.active_deck = "A" then
            { st with deck_a := st.deck_a.restart, approaching_end_sent_a := false,
                      end_sent_a := false }
          else
            { st with deck_b := st.deck_b.restart, approaching_end_sent_b := false,
                      end_sent_b := false }
        (st.emit (.auto_loop_restart st.active_deck)).emit .info
      else
        let other := if st.active_deck = "A" then "B" else "A"
        let st := st.emit .info
        if (if other = "A" then 0 < st.deck_a.samples.length
            else 0 < st.deck_b.samples.length) then
          let st :=
            if st.active_deck = "A" then
              { st with deck_a := Deck.new "A", buffer_prev_ready_a := false,
                        approaching_end_sent_a := false }
            else
              { st with deck_b := Deck.new "B", buffer_prev_ready_b := false,
                        approaching_end_sent_b := false }
          let st := { st with active_deck := other }
          let st :=
            if other = "A" then { st with deck_a := { st.deck_a with samples_played := 0 } }
            else { st with deck_b := { st.deck_b with samples_played := 0 } }
          ((st.emit (.auto_end_switch other)).emit (.deck_changed other "auto_gapless")).emit .info
        else
          if (if other = "A" then st.deck_a.receiver.isSome
              else st.deck_b.receiver.isSome) = true then
            let stuck : Bool :=
              match (if other = "A" then st.deck_a.load_started_at
                     else st.deck_b.load_started_at) with
              | some t => decide (30000 ≤ now - t)
              | none => false
            if stuck = true then (st.emit .error).emit (.end_ev st.active_deck)
            else { st.emit .info with auto_gapless_stall := some (other, now) }
          else
            if ((if other = "A" then st.deck_a.receiver.isSome
                 else st.deck_b.receiver.isSome) ||
                (if other = "A" then decide (0 < st.deck_a.full_samples.length)
                 else decide (0 < st.deck_b.full_samples.length))) = true then
              (st.emit (.end_ev st.active_deck)).emit .debug
            else
              (st.emit (.end_ev st.active_deck)).emit .debug
    else st
  else st

/-- Steps (k)/(l) after a chunk: if a mid-chunk auto-switch or loop restart
occurred, emit its events and skip the post-chunk auto-gapless handling
(lines 1103–1229). -/
def postChunkPhase (st : MixerState) (hasAudio : Bool) (now : ℕ) : MixerState :=
  if st.mid_chunk_auto_switch.isSome = true ∨ st.mid_chunk_loop_restart = true then
    let st :=
      if st.mid_chunk_loop_restart = true then
        (st.emit (.auto_loop_restart st.active_deck)).emit .info
      else
        match st.mid_chunk_auto_switch with
        | some nd => ((st.emit (.auto_end_switch nd)).emit (.deck_changed nd "mid_chunk_auto_gapless")).emit .info
        | none => st
    { st with mid_chunk_auto_switch := none, mid_chunk_loop_restart := false }
  else postChunkEnd st hasAudio now

section ClaimC3

/-- A state ripe for the proactive trigger, with the active deck A holding
200000 queued samples — at or above the spec's claimed 144000 threshold but
below the source's `SAMPLE_RATE * CHANNELS * 3 = 288000`. -/
def c3State : MixerState :=
  { MixerState.initial with
      is_playing := true
      deck_a := { Deck.new "A" with samples := List.replicate 200000 0 }
      deck_b := { Deck.new "B" with samples := List.replicate 48000 0 } }

/-- C3 (counterexample): in a state satisfying every trigger guard, with the
active deck holding 200000 queued samples (NOT below the claimed 144000) and
the other deck ready, the code nevertheless starts a proactive crossfade —
refuting the claim's "otherwise no proactive crossfade is started". -/
theorem proactive_claim_false_at_200000 :
    c3State.crossfading = false ∧ c3State.proactive_crossfade_triggered = false ∧
    c3State.is_playing = true ∧ c3State.proactive_crossfade_enabled = true ∧
    c3State.activeLen = 200000 ∧ 144000 ≤ c3State.activeLen ∧
    c3State.otherDeck.is_ready_for_crossfade = true ∧
    (proactiveTrigger c3State).crossfading = true ∧
    (proactiveTrigger c3State).proactive_crossfade_triggered = true := by
  have hact : c3State.active_deck = "A" := rfl
  have hlenA : c3State.deck_a.samples.length = 200000 := by
    show (List.replicate 200000 (0 : ℚ)).length = 200000
    rw [List.length_replicate]
  have hlenB : c3State.deck_b.samples.length = 48000 := by
    show (List.replicate 48000 (0 : ℚ)).length = 48000
    rw [List.length_replicate]
  have hAL : c3State.activeLen = 200000 := by
    simp only [MixerState.activeLen, hact]
    simpa using hlenA
  have hOD : c3State.otherDeck = c3State.deck_b := by
    simp [MixerState.otherDeck, hact]
  have hready : c3State.otherDeck.is_ready_for_crossfade = true := by
    rw [hOD]
    exact (Deck.is_ready_char _).mpr (by rw [hlenB])
  have hcond : c3State.activeLen < SAMPLE_RATE * CHANNELS * 3 ∧
      c3State.otherDeck.is_ready_for_crossfade = true := by
    refine ⟨?_, hready⟩
    rw [hAL]
    norm_num [SAMPLE_RATE, CHANNELS]
  have htrig : proactiveTrigger c3State =
      ({ c3State.emit .info with
          crossfading := true
          target_deck := c3State.otherName
          crossfade_total := SAMPLE_RATE * CHANNELS * 6
          crossfade_left := SAMPLE_RATE * CHANNELS * 6
          proactive_crossfade_triggered := true }).emit
        (.crossfade_started c3State.active_deck c3State.otherName) := by
    rw [proactiveTrigger, if_pos ⟨rfl, rfl, rfl, rfl⟩, if_pos hcond]
  refine ⟨rfl, rfl, rfl, rfl, hAL, ?_, hready, ?_, ?_⟩
  · rw [hAL]
    norm_num
  · rw [htrig]
    rfl
  · rw [htrig]
    rfl

/-- C3 (amended): under the trigger guards (not crossfading, no pending
proactive trigger, playing, proactive crossfade enabled), a 6-second
(`576000`-sample) crossfade toward the other deck is started, with
`proactive_crossfade_triggered` set and `crossfade_started` emitted, exactly
when the active deck's queued count is below `SAMPLE_RATE * CHANNELS * 3 =
288000` interleaved samples and the other deck is ready-for-crossfade;
otherwise the state is unchanged. -/
theorem proactive_trigger_amended (st : MixerState)
    (hcf : st.crossfading = false) (hpt : st.proactive_crossfade_triggered = false)
    (hp : st.is_playing = true) (he : st.proactive_crossfade_enabled = true) :
    (st.activeLen < 288000 → st.otherDeck.is_ready_for_crossfade = true →
      (proactiveTrigger st).crossfading = true ∧
      (proactiveTrigger st).target_deck = st.otherName ∧
      (proactiveTrigger st).crossfade_total = 576000 ∧
      (proactiveTrigger st).crossfade_left = 576000 ∧
      (proactiveTrigger st).proactive_crossfade_triggered = true ∧
      (proactiveTrigger st).log =
        st.log ++ [.info, .crossfade_started st.active_deck st.otherName]) ∧
    (¬(st.activeLen < 288000 ∧ st.otherDeck.is_ready_for_crossfade = true) →
      proactiveTrigger st = st) := by
  have h288 : SAMPLE_RATE * CHANNELS * 3 = 288000 := by
    norm_num [SAMPLE_RATE, CHANNELS]
  constructor
  · intro hlen hready
    have hcond : st.activeLen < SAMPLE_RATE * CHANNELS * 3 ∧
        st.otherDeck.is_ready_for_crossfade = true := by
      rw [h288]
      exact ⟨hlen, hready⟩
    have htrig : proactiveTrigger st =
        ({ st.emit .info with
            crossfading := true
            target_deck := st.otherName
            crossfade_total := SAMPLE_RATE * CHANNELS * 6
            crossfade_left := SAMPLE_RATE * CHANNELS * 6
            proactive_crossfade_triggered := true }).emit
          (.crossfade_started st.active_deck st.otherName) := by
      rw [proactiveTrigger, if_pos ⟨hcf, hpt, hp, he⟩, if_pos hcond]
    rw [htrig]
    refine ⟨rfl, rfl, ?_, ?_, rfl, ?_⟩
    · show SAMPLE_RATE * CHANNELS * 6 = 576000
      norm_num [SAMPLE_RATE, CHANNELS]
    · show SAMPLE_RATE * CHANNELS * 6 = 576000
      norm_num [SAMPLE_RATE, CHANNELS]
    · simp [MixerState.emit]
  · intro hnc
    rw [proactiveTrigger, if_pos ⟨hcf, hpt, hp, he⟩, if_neg (by rw [h288]; exact hnc)]

/-- A state where the trigger fires: active deck empty, other deck ready. -/
def c3WitnessState : MixerState :=
  { MixerState.initial with
      is_playing := true
      deck_b := { Deck.new "B" with samples := List.replicate 48000 0 } }

/-- C3 witness: the amended trigger fires at a concrete state. -/
theorem proactive_trigger_amended_witness :
    (proactiveTrigger c3WitnessState).crossfading = true :=
  ((proactive_trigger_amended c3WitnessState rfl rfl rfl rfl).1
    (by decide)
    (by
      have hlenB : c3WitnessState.deck_b.samples.length = 48000 := by
        show (List.replicate 48000 (0 : ℚ)).length = 48000
        rw [List.length_replicate]
      have hOD : c3WitnessState.otherDeck = c3WitnessState.deck_b := by
        have hact : c3WitnessState.active_deck = "A" := rfl
        simp [MixerState.otherDeck, hact]
      rw [hOD]
      exact (Deck.is_ready_char _).mpr (by rw [hlenB]))).1

end ClaimC3

section ClaimC5

/-- A silent-chunk state whose active deck A has ended with a detached
receiver and `samples_played` exactly at the spec's claimed 1.2 M gate. -/
def c5State : MixerState :=
  { MixerState.initial with
      is_playing := true
      deck_a := { Deck.new "A" with has_ended := true, samples_played := 1200000 } }

/-- C5 (counterexample): with every other firing condition satisfied and
`samples_played = 1200000` — the value the claim calls "the 25-second
minimum-played gate" — the post-chunk handling takes NO action, because the
source gate `MIN_SAMPLES_PLAYED_FOR_END` is `SAMPLE_RATE * CHANNELS * 25 =
2400000`, not 1.2 M. -/
theorem end_gate_claim_false_at_1200000 :
    c5State.deck_a.has_ended = true ∧ c5State.deck_a.receiver = none ∧
    c5State.deck_a.samples_played = 1200000 ∧ c5State.end_sent_a = false ∧
    c5State.crossfading = false ∧ c5State.is_playing = true ∧
    c5State.pending_transition = none ∧ c5State.auto_gapless_stall = none ∧
    postChunkEnd c5State false 0 = c5State ∧
    MIN_SAMPLES_PLAYED_FOR_END = 2400000 := by
  have hshould : ¬(if c5State.active_deck = "A" then
        c5State.deck_a.has_ended = true ∧ c5State.deck_a.receiver = none ∧
        MIN_SAMPLES_PLAYED_FOR_END ≤ c5State.deck_a.samples_played ∧
        c5State.end_sent_a = false
      else
        c5State.deck_b.has_ended = true ∧ c5State.deck_b.receiver = none ∧
        MIN_SAMPLES_PLAYED_FOR_END ≤ c5State.deck_b.samples_played ∧
        c5State.end_sent_b = false) := by
    rw [if_pos (show c5State.active_deck = "A" from rfl)]
    rintro ⟨-, -, hm, -⟩
    have h1 : c5State.deck_a.samples_played = 1200000 := rfl
    rw [h1] at hm
    norm_num [MIN_SAMPLES_PLAYED_FOR_END, SAMPLE_RATE, CHANNELS] at hm
  refine ⟨rfl, rfl, rfl, rfl, rfl, rfl, rfl, rfl, ?_,
    by norm_num [MIN_SAMPLES_PLAYED_FOR_END, SAMPLE_RATE, CHANNELS]⟩
  rw [postChunkEnd, if_pos ⟨rfl, rfl, rfl, rfl, rfl⟩, if_neg hshould]

/-- C5 (amended): the post-chunk auto-gapless end handling acts only when
the active deck has ended with its receiver detached and `samples_played ≥
MIN_SAMPLES_PLAYED_FOR_END = 2400000` (25 seconds); with `samples_played`
below that gate, the post-chunk path leaves the state untouched. -/
theorem post_chunk_end_gate (st : MixerState) (hasAudio : Bool) (now : ℕ)
    (hact : st.active_deck = "A" ∨ st.active_deck = "B") :
    (postChunkEnd st hasAudio now ≠ st →
      (st.deckOf st.active_deck).has_ended = true ∧
      (st.deckOf st.active_deck).receiver = none ∧
      MIN_SAMPLES_PLAYED_FOR_END ≤ (st.deckOf st.active_deck).samples_played) ∧
    ((st.deckOf st.active_deck).samples_played < MIN_SAMPLES_PLAYED_FOR_END →
      postChunkEnd st hasAudio now = st) := by
  by_cases houter : hasAudio = false ∧ st.crossfading = false ∧ st.is_playing = true ∧
      st.pending_transition = none ∧ st.auto_gapless_stall = none
  · by_cases hshould : (if st.active_deck = "A" then
        st.deck_a.has_ended = true ∧ st.deck_a.receiver = none ∧
        MIN_SAMPLES_PLAYED_FOR_END ≤ st.deck_a.samples_played ∧ st.end_sent_a = false
      else
        st.deck_b.has_ended = true ∧ st.deck_b.receiver = none ∧
        MIN_SAMPLES_PLAYED_FOR_END ≤ st.deck_b.samples_played ∧ st.end_sent_b = false)
    · have hconds : (st.deckOf st.active_deck).has_ended = true ∧
          (st.deckOf st.active_deck).receiver = none ∧
          MIN_SAMPLES_PLAYED_FOR_END ≤ (st.deckOf st.active_deck).samples_played := by
        rcases hact with h | h
        · rw [if_pos h] at hshould
          rw [h]
          simp only [MixerState.deckOf, if_pos rfl]
          exact ⟨hshould.1, hshould.2.1, hshould.2.2.1⟩
        · rw [h] at hshould
          rw [if_neg (by decide)] at hshould
          rw [h]
          have : MixerState.deckOf st "B" = st.deck_b := by
            simp [MixerState.deckOf]
          rw [this]
          exact ⟨hshould.1, hshould.2.1, hshould.2.2.1⟩
      exact ⟨fun _ => hconds, fun hlt => absurd hconds.2.2 (not_le.mpr hlt)⟩
    · have heq : postChunkEnd st hasAudio now = st := by
        rw [postChunkEnd, if_pos houter, if_neg hshould]
      exact ⟨fun hne => absurd heq hne, fun _ => heq⟩
  · have heq : postChunkEnd st hasAudio now = st := by
      rw [postChunkEnd, if_neg houter]
    exact ⟨fun hne => absurd heq hne, fun _ => heq⟩

/-- C5 witness: at a fresh mixer state (0 samples played), the post-chunk
path does nothing. -/
theorem post_chunk_end_gate_witness :
    postChunkEnd MixerState.initial false 0 = MixerState.initial :=
  (post_chunk_end_gate MixerState.initial false 0 (Or.inl rfl)).2
    (by norm_num [MixerState.deckOf, MixerState.initial, Deck.new,
          MIN_SAMPLES_PLAYED_FOR_END, SAMPLE_RATE, CHANNELS])

end ClaimC5

/-! ## Claim C7: mid-chunk recovery happens at most once per chunk -/

/-- Is this slot mark one of the two mid-chunk recovery paths? -/
def isRec (m : Option SlotMark) : Bool :=
  decide (m = some SlotMark.recLoop) || decide (m = some SlotMark.recSwitch)

/-- Number of recovery slots in a mark list. -/
def countRec (l : List (Option SlotMark)) : ℕ := l.countP (fun m => isRec m)

/-- After a recovery has happened in the current chunk, the state is
"blocked": either the auto-switch flag is set (which the recovery guard
checks directly), or the loop-restart flag is set while not crossfading with
the active deck's `samples_played` too small to pass the 25-second gate again
within the `n` remaining slots. -/
def Blocked (st : MixerState) (n : ℕ) : Prop :=
  st.mid_chunk_auto_switch.isSome = true ∨
  (st.mid_chunk_loop_restart = true ∧ st.crossfading = false ∧
   (st.deckOf st.active_deck).samples_played + n < MIN_SAMPLES_PLAYED_FOR_END)

theorem gns_played_le (d : Deck) :
    (d.get_next_sample).2.samples_played ≤ d.samples_played + 1 := by
  unfold Deck.get_next_sample
  rcases h : d.poll_receiver.samples with _ | ⟨s, rest⟩
  · simp only [h]
    by_cases he : d.poll_receiver.has_ended = false
    · rw [if_pos he]
      by_cases hr : d.poll_receiver.receiver = none ∧ 0 < d.poll_receiver.samples_played
      · rw [if_pos hr]
        show d.poll_receiver.samples_played ≤ d.samples_played + 1
        rw [poll_receiver_played]
        omega
      · rw [if_neg hr]
        show d.poll_receiver.samples_played ≤ d.samples_played + 1
        rw [poll_receiver_played]
        omega
    · rw [if_neg he]
      show d.poll_receiver.samples_played ≤ d.samples_played + 1
      rw [poll_receiver_played]
      omega
  · simp only [h]
    show d.poll_receiver.samples_played + 1 ≤ d.samples_played + 1
    rw [poll_receiver_played]

theorem restart_gns_played_le (d : Deck) :
    ((d.restart).get_next_sample).2.samples_played ≤ 1 := by
  have h := gns_played_le d.restart
  simpa [Deck.restart] using h

theorem crossfadeSlot_mark (st : MixerState) : (crossfadeSlot st).2.2 = none := by
  unfold crossfadeSlot
  by_cases h : st.targetHasAudio = false <;> simp [h]

theorem crossfadeFinalize_flags (st : MixerState) :
    (crossfadeFinalize st).mid_chunk_auto_switch = st.mid_chunk_auto_switch ∧
    (crossfadeFinalize st).mid_chunk_loop_restart = st.mid_chunk_loop_restart := by
  unfold crossfadeFinalize MixerState.emit
  dsimp only
  constructor <;> {  repeat' split
                     all_goals rfl }

theorem crossfadeSlot_flags (st : MixerState) :
    (crossfadeSlot st).1.mid_chunk_auto_switch = st.mid_chunk_auto_switch ∧
    (crossfadeSlot st).1.mid_chunk_loop_restart = st.mid_chunk_loop_restart := by
  unfold crossfadeSlot
  by_cases h : st.targetHasAudio = false
  · rw [if_pos h]
    by_cases ha : st.active_deck = "A" <;> simp [ha]
  · rw [if_neg h]
    dsimp only
    by_cases hl : st.crossfade_left - 1 = 0
    · rw [if_pos hl]
      exact crossfadeFinalize_flags _
    · rw [if_neg hl]
      exact ⟨rfl, rfl⟩

/-! ### Branch characterizations of `normalSlot` and the C7 argument -/

section ClaimC7

theorem normalSlot_pop_A (st : MixerState) (hA : st.active_deck = "A") {s : ℚ}
    (hs : (st.deck_a.get_next_sample).1 = some s) :
    normalSlot st = ({ st with deck_a := (st.deck_a.get_next_sample).2 }, s, none) := by
  conv_lhs => rw [normalSlot]
  simp only [hA, reduceIte, hs]

theorem normalSlot_noRec_A (st : MixerState) (hA : st.active_deck = "A")
    (hs : (st.deck_a.get_next_sample).1 = none)
    (hg : ¬((st.crossfading = false ∧ st.pending_transition = none ∧
             st.auto_gapless_stall = none ∧ st.is_playing = true) ∧
            ((st.deck_a.get_next_sample).2.has_ended = true ∧
             (st.deck_a.get_next_sample).2.receiver = none) ∧
            MIN_SAMPLES_PLAYED_FOR_END ≤ (st.deck_a.get_next_sample).2.samples_played ∧
            st.mid_chunk_auto_switch = none)) :
    normalSlot st =
      ({ st with deck_a := (st.deck_a.get_next_sample).2 }, 0, some SlotMark.silentExhaust) := by
  conv_lhs => rw [normalSlot]
  simp only [hA, reduceIte, hs]
  rw [if_neg hg]

theorem normalSlot_loop_A (st : MixerState) (hA : st.active_deck = "A")
    (hs : (st.deck_a.get_next_sample).1 = none)
    (hg : (st.crossfading = false ∧ st.pending_transition = none ∧
             st.auto_gapless_stall = none ∧ st.is_playing = true) ∧
            ((st.deck_a.get_next_sample).2.has_ended = true ∧
             (st.deck_a.get_next_sample).2.receiver = none) ∧
            MIN_SAMPLES_PLAYED_FOR_END ≤ (st.deck_a.get_next_sample).2.samples_played ∧
            st.mid_chunk_auto_switch = none)
    (hl : st.loop_mode = true) :
    normalSlot st =
      ({ st with
          deck_a := (((st.deck_a.get_next_sample).2.restart).get_next_sample).2
          approaching_end_sent_a := false
          mid_chunk_loop_restart := true },
       (((st.deck_a.get_next_sample).2.restart).get_next_sample).1.getD 0,
       some SlotMark.recLoop) := by
  conv_lhs => rw [normalSlot]
  simp only [hA, reduceIte, hs]
  rw [if_pos hg, if_pos hl]

theorem normalSlot_switch_A (st : MixerState) (hA : st.active_deck = "A")
    (hs : (st.deck_a.get_next_sample).1 = none)
    (hg : (st.crossfading = false ∧ st.pending_transition = none ∧
             st.auto_gapless_stall = none ∧ st.is_playing = true) ∧
            ((st.deck_a.get_next_sample).2.has_ended = true ∧
             (st.deck_a.get_next_sample).2.receiver = none) ∧
            MIN_SAMPLES_PLAYED_FOR_END ≤ (st.deck_a.get_next_sample).2.samples_played ∧
            st.mid_chunk_auto_switch = none)
    (hl : st.loop_mode = false) (ho : 0 < st.deck_b.samples.length) :
    normalSlot st =
      ({ st with
          deck_a := Deck.new "A"
          deck_b := ({ st.deck_b with samples_played := 0 }.get_next_sample).2
          active_deck := "B"
          buffer_prev_ready_a := false
          approaching_end_sent_a := false
          mid_chunk_auto_switch := some "B" },
       ({ st.deck_b with samples_played := 0 }.get_next_sample).1.getD 0,
       some SlotMark.recSwitch) := by
  conv_lhs => rw [normalSlot]
  simp only [hA, reduceIte, hs]
  rw [if_pos hg]
  simp only [hl, Bool.false_eq_true, if_false]
  simp only [show (("B" : String) = "A") = False by simp, if_false, if_true, reduceIte]
  rw [if_pos ho]

theorem normalSlot_nosw_A (st : MixerState) (hA : st.active_deck = "A")
    (hs : (st.deck_a.get_next_sample).1 = none)
    (hg : (st.crossfading = false ∧ st.pending_transition = none ∧
             st.auto_gapless_stall = none ∧ st.is_playing = true) ∧
            ((st.deck_a.get_next_sample).2.has_ended = true ∧
             (st.deck_a.get_next_sample).2.receiver = none) ∧
            MIN_SAMPLES_PLAYED_FOR_END ≤ (st.deck_a.get_next_sample).2.samples_played ∧
            st.mid_chunk_auto_switch = none)
    (hl : st.loop_mode = false) (ho : ¬(0 < st.deck_b.samples.length)) :
    normalSlot st =
      ({ st with deck_a := (st.deck_a.get_next_sample).2 }, 0, some SlotMark.silentExhaust) := by
  conv_lhs => rw [normalSlot]
  simp only [hA, reduceIte, hs]
  rw [if_pos hg]
  simp only [hl, Bool.false_eq_true, if_false]
  simp only [show (("B" : String) = "A") = False by simp, if_false, reduceIte]
  rw [if_neg ho]

theorem normalSlot_pop_B (st : MixerState) (hA : ¬(st.active_deck = "A")) {s : ℚ}
    (hs : (st.deck_b.get_next_sample).1 = some s) :
    normalSlot st = ({ st with deck_b := (st.deck_b.get_next_sample).2 }, s, none) := by
  conv_lhs => rw [normalSlot]
  simp only [hA, reduceIte, hs, if_false]

theorem normalSlot_noRec_B (st : MixerState) (hA : ¬(st.active_deck = "A"))
    (hs : (st.deck_b.get_next_sample).1 = none)
    (hg : ¬((st.crossfading = false ∧ st.pending_transition = none ∧
             st.auto_gapless_stall = none ∧ st.is_playing = true) ∧
            ((st.deck_b.get_next_sample).2.has_ended = true ∧
             (st.deck_b.get_next_sample).2.receiver = none) ∧
            MIN_SAMPLES_PLAYED_FOR_END ≤ (st.deck_b.get_next_sample).2.samples_played ∧
            st.mid_chunk_auto_switch = none)) :
    normalSlot st =
      ({ st with deck_b := (st.deck_b.get_next_sample).2 }, 0, some SlotMark.silentExhaust) := by
  conv_lhs => rw [normalSlot]
  simp only [hA, reduceIte, hs, if_false]
  rw [if_neg hg]

theorem normalSlot_loop_B (st : MixerState) (hA : ¬(st.active_deck = "A"))
    (hs : (st.deck_b.get_next_sample).1 = none)
    (hg : (st.crossfading = false ∧ st.pending_transition = none ∧
             st.auto_gapless_stall = none ∧ st.is_playing = true) ∧
            ((st.deck_b.get_next_sample).2.has_ended = true ∧
             (st.deck_b.get_next_sample).2.receiver = none) ∧
            MIN_SAMPLES_PLAYED_FOR_END ≤ (st.deck_b.get_next_sample).2.samples_played ∧
            st.mid_chunk_auto_switch = none)
    (hl : st.loop_mode = true) :
    normalSlot st =
      ({ st with
          deck_b := (((st.deck_b.get_next_sample).2.restart).get_next_sample).2
          approaching_end_sent_b := false
          mid_chunk_loop_restart := true },
       (((st.deck_b.get_next_sample).2.restart).get_next_sample).1.getD 0,
       some SlotMark.recLoop) := by
  conv_lhs => rw [normalSlot]
  simp only [hA, reduceIte, hs, if_false]
  rw [if_pos hg, if_pos hl]

theorem normalSlot_switch_B (st : MixerState) (hA : ¬(st.active_deck = "A"))
    (hs : (st.deck_b.get_next_sample).1 = none)
    (hg : (st.crossfading = false ∧ st.pending_transition = none ∧
             st.auto_gapless_stall = none ∧ st.is_playing = true) ∧
            ((st.deck_b.get_next_sample).2.has_ended = true ∧
             (st.deck_b.get_next_sample).2.receiver = none) ∧
            MIN_SAMPLES_PLAYED_FOR_END ≤ (st.deck_b.get_next_sample).2.samples_played ∧
            st.mid_chunk_auto_switch = none)
    (hl : st.loop_mode = false) (ho : 0 < st.deck_a.samples.length) :
    normalSlot st =
      ({ st with
          deck_a := ({ st.deck_a with samples_played := 0 }.get_next_sample).2
          deck_b := Deck.new "B"
          active_deck := "A"
          buffer_prev_ready_b := false
          approaching_end_sent_b := false
          mid_chunk_auto_switch := some "A" },
       ({ st.deck_a with samples_played := 0 }.get_next_sample).1.getD 0,
       some SlotMark.recSwitch) := by
  conv_lhs => rw [normalSlot]
  simp only [hA, reduceIte, hs, if_false]
  rw [if_pos hg]
  simp only [hl, Bool.false_eq_true, if_false]
  rw [if_pos ho]

theorem normalSlot_nosw_B (st : MixerState) (hA : ¬(st.active_deck = "A"))
    (hs : (st.deck_b.get_next_sample).1 = none)
    (hg : (st.crossfading = false ∧ st.pending_transition = none ∧
             st.auto_gapless_stall = none ∧ st.is_playing = true) ∧
            ((st.deck_b.get_next_sample).2.has_ended = true ∧
             (st.deck_b.get_next_sample).2.receiver = none) ∧
            MIN_SAMPLES_PLAYED_FOR_END ≤ (st.deck_b.get_next_sample).2.samples_played ∧
            st.mid_chunk_auto_switch = none)
    (hl : st.loop_mode = false) (ho : ¬(0 < st.deck_a.samples.length)) :
    normalSlot st =
      ({ st with deck_b := (st.deck_b.get_next_sample).2 }, 0, some SlotMark.silentExhaust) := by
  conv_lhs => rw [normalSlot]
  simp only [hA, reduceIte, hs, if_false]
  rw [if_pos hg]
  simp only [hl, Bool.false_eq_true, if_false]
  rw [if_neg ho]

theorem deckOf_update_A (st : MixerState) (d : Deck) (hA : st.active_deck = "A") :
    ({ st with deck_a := d } : MixerState).deckOf
      ({ st with deck_a := d } : MixerState).active_deck = d := by
  simp [MixerState.deckOf, hA]

theorem deckOf_update_B (st : MixerState) (d : Deck) (hA : ¬(st.active_deck = "A")) :
    ({ st with deck_b := d } : MixerState).deckOf
      ({ st with deck_b := d } : MixerState).active_deck = d := by
  simp [MixerState.deckOf, hA]

theorem deckOf_A (st : MixerState) (hA : st.active_deck = "A") :
    st.deckOf st.active_deck = st.deck_a := by
  simp [MixerState.deckOf, hA]

theorem deckOf_B (st : MixerState) (hA : ¬(st.active_deck = "A")) :
    st.deckOf st.active_deck = st.deck_b := by
  simp [MixerState.deckOf, hA]

theorem Blocked_update_A (st : MixerState) (n : ℕ) (d : Deck) (hA : st.active_deck = "A")
    (hd : d.samples_played ≤ st.deck_a.samples_played + 1)
    (hb : Blocked st (n + 1)) :
    Blocked { st with deck_a := d } n := by
  rcases hb with h | ⟨h1, h2, h3⟩
  · exact Or.inl h
  · refine Or.inr ⟨h1, h2, ?_⟩
    rw [deckOf_update_A st d hA]
    rw [deckOf_A st hA] at h3
    omega

theorem Blocked_update_B (st : MixerState) (n : ℕ) (d : Deck) (hA : ¬(st.active_deck = "A"))
    (hd : d.samples_played ≤ st.deck_b.samples_played + 1)
    (hb : Blocked st (n + 1)) :
    Blocked { st with deck_b := d } n := by
  rcases hb with h | ⟨h1, h2, h3⟩
  · exact Or.inl h
  · refine Or.inr ⟨h1, h2, ?_⟩
    rw [deckOf_update_B st d hA]
    rw [deckOf_B st hA] at h3
    omega

theorem not_Blocked_of_guard_A (st : MixerState) (n : ℕ) (hA : st.active_deck = "A")
    (hflag : st.mid_chunk_auto_switch = none)
    (hmin : MIN_SAMPLES_PLAYED_FOR_END ≤ (st.deck_a.get_next_sample).2.samples_played) :
    ¬ Blocked st (n + 1) := by
  rintro (h | ⟨h1, h2, h3⟩)
  · rw [hflag] at h
    simp at h
  · have hle := gns_played_le st.deck_a
    rw [deckOf_A st hA] at h3
    omega

theorem not_Blocked_of_guard_B (st : MixerState) (n : ℕ) (hA : ¬(st.active_deck = "A"))
    (hflag : st.mid_chunk_auto_switch = none)
    (hmin : MIN_SAMPLES_PLAYED_FOR_END ≤ (st.deck_b.get_next_sample).2.samples_played) :
    ¬ Blocked st (n + 1) := by
  rintro (h | ⟨h1, h2, h3⟩)
  · rw [hflag] at h
    simp at h
  · have hle := gns_played_le st.deck_b
    rw [deckOf_B st hA] at h3
    omega

theorem mixSlot_c7 (st : MixerState) (n : ℕ) (hn : n + 2 ≤ MIN_SAMPLES_PLAYED_FOR_END) :
    (Blocked st (n + 1) → isRec (mixSlot st).2.2 = false ∧ Blocked (mixSlot st).1 n) ∧
    (isRec (mixSlot st).2.2 = true → Blocked (mixSlot st).1 n) ∧
    ((mixSlot st).2.2 = some SlotMark.silentExhaust → (mixSlot st).2.1 = 0) := by
  by_cases hcf : st.crossfading = true
  · have hM : (mixSlot st).2.2 = none := by
      rw [mixSlot, if_pos hcf]
      exact crossfadeSlot_mark st
    have hF : (mixSlot st).1.mid_chunk_auto_switch = st.mid_chunk_auto_switch := by
      rw [mixSlot, if_pos hcf]
      exact (crossfadeSlot_flags st).1
    refine ⟨?_, ?_, ?_⟩
    · intro hb
      refine ⟨by rw [hM]; rfl, ?_⟩
      rcases hb with h | h
      · exact Or.inl (by rw [hF]; exact h)
      · rw [h.2.1] at hcf
        cases hcf
    · intro hr
      rw [hM] at hr
      simp [isRec] at hr
    · intro hsil
      rw [hM] at hsil
      cases hsil
  · have hms : mixSlot st = normalSlot st := by rw [mixSlot, if_neg hcf]
    have hcf0 : st.crossfading = false := by
      revert hcf
      cases st.crossfading <;> simp
    rw [hms]
    by_cases hA : st.active_deck = "A"
    · rcases hsv : (st.deck_a.get_next_sample).1 with _ | s
      · by_cases hg : (st.crossfading = false ∧ st.pending_transition = none ∧
            st.auto_gapless_stall = none ∧ st.is_playing = true) ∧
            ((st.deck_a.get_next_sample).2.has_ended = true ∧
             (st.deck_a.get_next_sample).2.receiver = none) ∧
            MIN_SAMPLES_PLAYED_FOR_END ≤ (st.deck_a.get_next_sample).2.samples_played ∧
            st.mid_chunk_auto_switch = none
        · have hnb := not_Blocked_of_guard_A st n hA hg.2.2.2 hg.2.2.1
          by_cases hl : st.loop_mode = true
          · rw [normalSlot_loop_A st hA hsv hg hl]
            refine ⟨fun hb => absurd hb hnb, fun _ => ?_, fun h => by cases h⟩
            refine Or.inr ⟨rfl, hcf0, ?_⟩
            have hple := restart_gns_played_le (st.deck_a.get_next_sample).2
            simp only [MixerState.deckOf, hA, reduceIte]
            omega
          · have hl' : st.loop_mode = false := by
              revert hl
              cases st.loop_mode <;> simp
            by_cases ho : 0 < st.deck_b.samples.length
            · rw [normalSlot_switch_A st hA hsv hg hl' ho]
              exact ⟨fun hb => absurd hb hnb, fun _ => Or.inl rfl, fun h => by cases h⟩
            · rw [normalSlot_nosw_A st hA hsv hg hl' ho]
              exact ⟨fun hb => absurd hb hnb, fun hr => by simp [isRec] at hr,
                fun _ => rfl⟩
        · rw [normalSlot_noRec_A st hA hsv hg]
          refine ⟨?_, fun hr => by simp [isRec] at hr, fun _ => rfl⟩
          intro hb
          exact ⟨rfl, Blocked_update_A st n _ hA (gns_played_le st.deck_a) hb⟩
      · rw [normalSlot_pop_A st hA hsv]
        refine ⟨?_, fun hr => by simp [isRec] at hr, fun h => by cases h⟩
        intro hb
        exact ⟨rfl, Blocked_update_A st n _ hA (gns_played_le st.deck_a) hb⟩
    · rcases hsv : (st.deck_b.get_next_sample).1 with _ | s
      · by_cases hg : (st.crossfading = false ∧ st.pending_transition = none ∧
            st.auto_gapless_stall = none ∧ st.is_playing = true) ∧
            ((st.deck_b.get_next_sample).2.has_ended = true ∧
             (st.deck_b.get_next_sample).2.receiver = none) ∧
            MIN_SAMPLES_PLAYED_FOR_END ≤ (st.deck_b.get_next_sample).2.samples_played ∧
            st.mid_chunk_auto_switch = none
        · have hnb := not_Blocked_of_guard_B st n hA hg.2.2.2 hg.2.2.1
          by_cases hl : st.loop_mode = true
          · rw [normalSlot_loop_B st hA hsv hg hl]
            refine ⟨fun hb => absurd hb hnb, fun _ => ?_, fun h => by cases h⟩
            refine Or.inr ⟨rfl, hcf0, ?_⟩
            have hple := restart_gns_played_le (st.deck_b.get_next_sample).2
            simp only [MixerState.deckOf, hA, reduceIte]
            omega
          · have hl' : st.loop_mode = false := by
              revert hl
              cases st.loop_mode <;> simp
            by_cases ho : 0 < st.deck_a.samples.length
            · rw [normalSlot_switch_B st hA hsv hg hl' ho]
              exact ⟨fun hb => absurd hb hnb, fun _ => Or.inl rfl, fun h => by cases h⟩
            · rw [normalSlot_nosw_B st hA hsv hg hl' ho]
              exact ⟨fun hb => absurd hb hnb, fun hr => by simp [isRec] at hr,
                fun _ => rfl⟩
        · rw [normalSlot_noRec_B st hA hsv hg]
          refine ⟨?_, fun hr => by simp [isRec] at hr, fun _ => rfl⟩
          intro hb
          exact ⟨rfl, Blocked_update_B st n _ hA (gns_played_le st.deck_b) hb⟩
      · rw [normalSlot_pop_B st hA hsv]
        refine ⟨?_, fun hr => by simp [isRec] at hr, fun h => by cases h⟩
        intro hb
        exact ⟨rfl, Blocked_update_B st n _ hA (gns_played_le st.deck_b) hb⟩

theorem runSlots_c7 : ∀ (n : ℕ), n ≤ CHUNK_SIZE → ∀ (st : MixerState),
    (Blocked st n → countRec (runSlots st n).2.2 = 0) ∧
    countRec (runSlots st n).2.2 ≤ 1 ∧
    ¬(some SlotMark.recLoop ∈ (runSlots st n).2.2 ∧
      some SlotMark.recSwitch ∈ (runSlots st n).2.2) ∧
    (∀ o m, (o, m) ∈ (runSlots st n).2.1.zip (runSlots st n).2.2 →
      m = some SlotMark.silentExhaust → o = 0) := by
  intro n
  induction n with
  | zero =>
    intro _ st
    exact ⟨fun _ => rfl, by simp [runSlots, countRec], by simp [runSlots],
      by simp [runSlots]⟩
  | succ k ih =>
    intro hk st
    have hk' : k ≤ CHUNK_SIZE := by omega
    have hn2 : k + 2 ≤ MIN_SAMPLES_PLAYED_FOR_END := by
      have h960 : CHUNK_SIZE = 960 := rfl
      have hMIN : MIN_SAMPLES_PLAYED_FOR_END = 2400000 := by
        norm_num [MIN_SAMPLES_PLAYED_FOR_END, SAMPLE_RATE, CHANNELS]
      omega
    obtain ⟨hblocked, hrec, hsil⟩ := mixSlot_c7 st k hn2
    obtain ⟨ihb, ihc, ihn, ihs⟩ := ih hk' (mixSlot st).1
    have hmk : (runSlots st (k + 1)).2.2 =
        (mixSlot st).2.2 :: (runSlots (mixSlot st).1 k).2.2 := rfl
    have hout : (runSlots st (k + 1)).2.1 =
        (mixSlot st).2.1 :: (runSlots (mixSlot st).1 k).2.1 := rfl
    rw [hmk, hout]
    refine ⟨?_, ?_, ?_, ?_⟩
    · intro hb
      obtain ⟨hmf, hb'⟩ := hblocked hb
      have h0 := ihb hb'
      rw [countRec] at h0 ⊢
      rw [List.countP_cons]
      simp [h0, hmf]
    · by_cases hm : isRec (mixSlot st).2.2 = true
      · have h0 := ihb (hrec hm)
        rw [countRec] at h0 ⊢
        rw [List.countP_cons]
        simp [h0, hm]
      · rw [countRec] at ihc ⊢
        rw [List.countP_cons]
        simp only [hm]
        simpa using ihc
    · rintro ⟨hL, hS⟩
      by_cases hm : isRec (mixSlot st).2.2 = true
      · have h0 := ihb (hrec hm)
        rw [countRec] at h0
        have hnone := List.countP_eq_zero.mp h0
        rcases List.mem_cons.mp hL with heL | htL
        · rcases List.mem_cons.mp hS with heS | htS
          · rw [← heL] at heS
            cases heS
          · have := hnone _ htS
            simp [isRec] at this
        · have := hnone _ htL
          simp [isRec] at this
      · have hL' : some SlotMark.recLoop ∈ (runSlots (mixSlot st).1 k).2.2 := by
          rcases List.mem_cons.mp hL with he | ht
          · rw [← he] at hm
            simp [isRec] at hm
          · exact ht
        have hS' : some SlotMark.recSwitch ∈ (runSlots (mixSlot st).1 k).2.2 := by
          rcases List.mem_cons.mp hS with he | ht
          · rw [← he] at hm
            simp [isRec] at hm
          · exact ht
        exact ihn ⟨hL', hS'⟩
    · intro o m hmem hsl
      rw [List.zip_cons_cons] at hmem
      rcases List.mem_cons.mp hmem with he | ht
      · rw [Prod.mk.injEq] at he
        obtain ⟨ho, hm2⟩ := he
        rw [ho]
        exact hsil (by rw [← hm2]; exact hsl)
      · exact ihs o m ht hsl

/-- C7: within any single 960-slot chunk-synthesis loop (which starts by
clearing both mid-chunk flags), the mid-chunk recovery — loop restart of the
active deck or auto-switch to the other deck — is performed at most once;
the loop-restart and auto-switch paths never both occur in one chunk; and
every slot where the active deck is exhausted without a recovery
(`silentExhaust`) outputs exactly `0.0`, so a second exhaustion within the
same chunk produces silence rather than a second restart or switch. -/
theorem mid_chunk_recovery_at_most_once (st : MixerState) :
    countRec (chunkSynth st).2.2 ≤ 1 ∧
    ¬(some SlotMark.recLoop ∈ (chunkSynth st).2.2 ∧
      some SlotMark.recSwitch ∈ (chunkSynth st).2.2) ∧
    (∀ o m, (o, m) ∈ (chunkSynth st).2.1.zip (chunkSynth st).2.2 →
      m = some SlotMark.silentExhaust → o = 0) := by
  obtain ⟨-, hc, hn, hs⟩ := runSlots_c7 CHUNK_SIZE le_rfl
    { st with mid_chunk_auto_switch := none, mid_chunk_loop_restart := false }
  exact ⟨hc, hn, hs⟩

/-- C7 witness: the recovery count bound evaluated at the initial state. -/
theorem mid_chunk_recovery_at_most_once_witness :
    countRec (chunkSynth MixerState.initial).2.2 ≤ 1 :=
  (mid_chunk_recovery_at_most_once MixerState.initial).1

end ClaimC7

/-! ## Command intake and the full mixer iteration -/

/-- The JSON command grammar (`InputCommand` in the source).  The `url`
field of `load` only feeds the unmodelled decoder thread and is omitted. -/
inductive InputCommand where
  | Load (deck : String) (autoplay : Bool)
  | Crossfade (duration_ms : ℕ) (to_deck : String)
  | Play (deck : String)
  | StopDeck (deck : String)
  | SetProactiveCrossfade (enabled : Bool)
  | SetLoop (enabled : Bool)
  | SkipTo (tdeck : String)
  | ApproveProposal (new_deck : String)
  | RestartDeck (deck : String)
  | PauseAll
  | ResumeAll
  | Stop
deriving DecidableEq

/-- Command dispatch of `mixer_loop` (lines 539–734), one iteration of the
`while let Ok(cmd) = cmd_rx.try_recv()` drain.  `now` models
`Instant::now()` in milliseconds.  `Stop` sets `halted` (modelling
`process::exit(0)`). -/
def handleCommand (st : MixerState) (cmd : InputCommand) (now : ℕ) : MixerState :=
  match cmd with
  | .Load deck _autoplay =>
    let st :=
      if st.crossfading = true ∧ deck = st.active_deck then
        let st := st.emit .info
        let st := { st with
          crossfading := false
          proactive_crossfade_triggered := false
          crossfade_left := 0
          crossfade_total := 0
          active_deck := st.target_deck }
        let st :=
          if st.target_deck = "A" then
            { st with deck_a := { st.deck_a with samples_played := 0 } }
          else if st.target_deck = "B" then
            { st with deck_b := { st.deck_b with samples_played := 0 } }
          else st
        st.emit (.deck_changed st.active_deck "crossfade_snap")
      else st
    if deck = "A" then
      ({ st with
          deck_a := st.deck_a.load now
          buffer_prev_ready_a := false
          end_sent_a := false
          approaching_end_sent_a := false }).emit .info
    else if deck = "B" then
      ({ st with
          deck_b := st.deck_b.load now
          buffer_prev_ready_b := false
          end_sent_b := false
          approaching_end_sent_b := false }).emit .info
    else st
  | .Play deck =>
    let st := { st with
      active_deck := deck
      crossfading := false
      proactive_crossfade_triggered := false
      is_playing := true
      auto_gapless_stall := none }
    let st :=
      if deck = "A" then { st with deck_a := { st.deck_a with samples_played := 0 } }
      else if deck = "B" then { st with deck_b := { st.deck_b with samples_played := 0 } }
      else st
    (st.emit .info).emit (.deck_changed deck "play_command")
  | .StopDeck deck =>
    let st := { st with auto_gapless_stall := none }
    let st := st.emit .debug
    let st :=
      if deck = "A" then
        { st with deck_a := Deck.new "A", buffer_prev_ready_a := false,
                  end_sent_a := false, approaching_end_sent_a := false }
      else if deck = "B" then
        { st with deck_b := Deck.new "B", buffer_prev_ready_b := false,
                  end_sent_b := false, approaching_end_sent_b := false }
      else st
    if deck = st.active_deck then ({ st with is_playing := false }).emit .info else st
  | .Crossfade duration_ms to_deck =>
    let st := { st with auto_gapless_stall := none }
    if ¬(to_deck = st.active_deck) ∧ st.crossfading = false then
      let st :=
        if to_deck = "A" then { st with deck_a := st.deck_a.poll_receiver }
        else if to_deck = "B" then { st with deck_b := st.deck_b.poll_receiver }
        else st
      if (if to_deck = "A" then st.deck_a.is_ready_for_crossfade
          else st.deck_b.is_ready_for_crossfade) = true ∨
         (if to_deck = "A" then st.deck_a.receiver = none ∧ 0 < st.deck_a.samples.length
          else st.deck_b.receiver = none ∧ 0 < st.deck_b.samples.length) then
        ({ st with
            crossfading := true
            target_deck := to_deck
            crossfade_total := duration_ms * SAMPLE_RATE / 1000 * CHANNELS
            crossfade_left := duration_ms * SAMPLE_RATE / 1000 * CHANNELS
            pending_transition := none }).emit (.crossfade_started st.active_deck to_deck)
      else
        ({ st with pending_transition := some (to_deck, now, true, duration_ms) }).emit .info
    else st
  | .SetProactiveCrossfade enabled =>
    ({ st with proactive_crossfade_enabled := enabled }).emit .info
  | .SetLoop enabled =>
    ({ st with loop_mode := enabled }).emit .info
  | .SkipTo tdeck =>
    let st := { st with auto_gapless_stall := none }
    if ¬(tdeck = st.active_deck) ∧ ¬(tdeck = "C") then
      let st := st.emit .info
      let st :=
        if tdeck = "A" then { st with deck_a := st.deck_a.poll_receiver }
        else if tdeck = "B" then { st with deck_b := st.deck_b.poll_receiver }
        else st
      if (if tdeck = "A" then st.deck_a.is_ready_for_crossfade
          else if tdeck = "B" then st.deck_b.is_ready_for_crossfade
          else false) = true ∨
         (if tdeck = "A" then st.deck_a.receiver = none ∧ 0 < st.deck_a.samples.length
          else st.deck_b.receiver = none ∧ 0 < st.deck_b.samples.length) then
        let st := st.emit (.buffer_ready tdeck)
        let st :=
          if st.active_deck = "A" then
            { st with deck_a := Deck.new "A", buffer_prev_ready_a := false,
                      end_sent_a := false, approaching_end_sent_a := false }
          else if st.active_deck = "B" then
            { st with deck_b := Deck.new "B", buffer_prev_ready_b := false,
                      end_sent_b := false, approaching_end_sent_b := false }
          else st
        let st := { st with
          active_deck := tdeck
          crossfading := false
          proactive_crossfade_triggered := false
          crossfade_left := 0
          crossfade_total := 0
          is_playing := true
          pending_transition := none }
        let st :=
          if tdeck = "A" then { st with deck_a := { st.deck_a with samples_played := 0 } }
          else if tdeck = "B" then { st with deck_b := { st.deck_b with samples_played := 0 } }
          else st
        (st.emit .info).emit (.deck_changed tdeck "skip_command")
      else
        ({ st with pending_transition := some (tdeck, now, false, 0) }).emit .info
    else st
  | .ApproveProposal new_deck =>
    if ¬(new_deck = st.active_deck) ∧ ¬(new_deck = "C") ∧
       st.proactive_crossfade_triggered = true then
      let st := st.emit .info
      let st := { st with
        crossfading := true
        target_deck := new_deck
        crossfade_total := SAMPLE_RATE * CHANNELS * 6
        crossfade_left := SAMPLE_RATE * CHANNELS * 6
        proactive_crossfade_triggered := false }
      st.emit .info
    else st
  | .RestartDeck deck =>
    let st := st.emit .info
    let st :=
      if deck = "A" then
        { st with deck_a := st.deck_a.restart, buffer_prev_ready_a := false,
                  end_sent_a := false, approaching_end_sent_a := false }
      else if deck = "B" then
        { st with deck_b := st.deck_b.restart, buffer_prev_ready_b := false,
                  end_sent_b := false, approaching_end_sent_b := false }
      else st
    st.emit (.deck_restarted deck)
  | .PauseAll => ({ st with is_playing := false }).emit .info
  | .ResumeAll => ({ st with is_playing := true }).emit .info
  | .Stop => { st with halted := true }

/-- Auto-gapless stall resolution, step (c) of the iteration
(lines 741–783). -/
def stallCheck (st : MixerState) (now : ℕ) : MixerState :=
  match st.auto_gapless_stall with
  | none => st
  | some (stall_target, stall_since) =>
    let st :=
      if stall_target = "A" then { st with deck_a := st.deck_a.poll_receiver }
      else { st with deck_b := st.deck_b.poll_receiver }
    if (if stall_target = "A" then 0 < st.deck_a.samples.length
        else 0 < st.deck_b.samples.length) then
      let st := st.emit .info
      let st :=
        if st.active_deck = "A" then
          { st with deck_a := Deck.new "A", buffer_prev_ready_a := false,
                    approaching_end_sent_a := false }
        else
          { st with deck_b := Deck.new "B", buffer_prev_ready_b := false,
                    approaching_end_sent_b := false }
      let st := { st with active_deck := stall_target }
      let st :=
        if stall_target = "A" then { st with deck_a := { st.deck_a with samples_played := 0 } }
        else { st with deck_b := { st.deck_b with samples_played := 0 } }
      let st := (st.emit (.auto_end_switch stall_target)).emit
        (.deck_changed stall_target "auto_gapless_stall")
      { st with auto_gapless_stall := none }
    else if 10000 ≤ now - stall_since then
      let st := (st.emit .info).emit (.end_ev st.active_deck)
      { st with auto_gapless_stall := none }
    else st

/-- Pending-transition resolution, step (d) of the iteration
(lines 785–846). -/
def pendingCheck (st : MixerState) (now : ℕ) : MixerState :=
  match st.pending_transition with
  | none => st
  | some (ptarget, since, is_cf, cf_dur) =>
    if (if ptarget = "A" then st.deck_a.is_ready_for_crossfade
        else st.deck_b.is_ready_for_crossfade) = true ∨
       (if ptarget = "A" then st.deck_a.receiver = none ∧ 0 < st.deck_a.samples.length
        else st.deck_b.receiver = none ∧ 0 < st.deck_b.samples.length) ∨
       8000 ≤ now - since then
      let st := st.emit .info
      let st :=
        if is_cf = true then
          ({ st with
              crossfading := true
              target_deck := ptarget
              crossfade_total := cf_dur * SAMPLE_RATE / 1000 * CHANNELS
              crossfade_left := cf_dur * SAMPLE_RATE / 1000 * CHANNELS
              proactive_crossfade_triggered := false }).emit
            (.crossfade_started st.active_deck ptarget)
        else
          let st :=
            if st.active_deck = "A" then
              { st with deck_a := Deck.new "A", buffer_prev_ready_a := false,
                        end_sent_a := false, approaching_end_sent_a := false }
            else if st.active_deck = "B" then
              { st with deck_b := Deck.new "B", buffer_prev_ready_b := false,
                        end_sent_b := false, approaching_end_sent_b := false }
            else st
          let st := { st with
            active_deck := ptarget
            crossfading := false
            proactive_crossfade_triggered := false
            crossfade_left := 0
            crossfade_total := 0
            is_playing := true }
          let st :=
            if ptarget = "A" then { st with deck_a := { st.deck_a with samples_played := 0 } }
            else if ptarget = "B" then { st with deck_b := { st.deck_b with samples_played := 0 } }
            else st
          (st.emit .info).emit (.deck_changed ptarget "pending_skip")
      ({ st with pending_transition := none }).emit (.buffer_ready ptarget)
    else st

/-- Buffer-ready edge detection, step (e) of the iteration
(lines 848–865): every fifth iteration re-evaluate readiness and emit
`buffer_ready` on a not-ready-to-ready transition of the non-active deck. -/
def bufferMonitor (st : MixerState) : MixerState :=
  let c := st.buffer_monitor_counter + 1
  if 5 ≤ c then
    let st := { st with buffer_monitor_counter := 0 }
    let b_ready := st.deck_b.is_ready_for_crossfade
    let a_ready := st.deck_a.is_ready_for_crossfade
    let st :=
      if (st.active_deck = "A" ∨ st.active_deck = "C") ∧ b_ready = true ∧
         st.buffer_prev_ready_b = false then
        st.emit (.buffer_ready "B")
      else st
    let st := { st with buffer_prev_ready_b := b_ready }
    let st :=
      if (st.active_deck = "B" ∨ st.active_deck = "C") ∧ a_ready = true ∧
         st.buffer_prev_ready_a = false then
        st.emit (.buffer_ready "A")
      else st
    { st with buffer_prev_ready_a := a_ready }
  else { st with buffer_monitor_counter := c }

/-- Per-iteration external input: commands drained this iteration, chunks
arriving on each deck's channel (and whether its sender closed), and the
current instant in milliseconds. -/
structure MixerInput where
  cmds : List InputCommand
  arrivals_a : List (List ℚ)
  close_a : Bool
  arrivals_b : List (List ℚ)
  close_b : Bool
  now : ℕ

/-- Environment step: deliver this iteration's chunk arrivals and channel
closures to the decks' channel endpoints. -/
def applyEnv (st : MixerState) (inp : MixerInput) : MixerState :=
  let da := inp.arrivals_a.foldl Deck.arrive st.deck_a
  let da := if inp.close_a then da.closeChan else da
  let db := inp.arrivals_b.foldl Deck.arrive st.deck_b
  let db := if inp.close_b then db.closeChan else db
  { st with deck_a := da, deck_b := db }

/-- One iteration of `mixer_loop` (lines 537–1240): environment, command
drain, unconditional polls, stall check, pending check, buffer monitor,
paused short-circuit, stall silence, proactive trigger, chunk synthesis,
approaching-end detection, and the post-chunk phase.  The PCM bytes written
to stdout and the 30-second status debug line are not modelled. -/
def mixerIteration (st : MixerState) (inp : MixerInput) : MixerState :=
  if st.halted = true then st
  else
    let st := applyEnv st inp
    let st := inp.cmds.foldl
      (fun s c => if s.halted = true then s else handleCommand s c inp.now) st
    if st.halted = true then st
    else
      let st := { st with deck_a := st.deck_a.poll_receiver, deck_b := st.deck_b.poll_receiver }
      let st := stallCheck st inp.now
      let st := pendingCheck st inp.now
      let st := bufferMonitor st
      if st.is_playing = false then st
      else if st.auto_gapless_stall.isSome = true then st
      else
        let st := proactiveTrigger st
        let r := chunkSynth st
        let st := r.1
        let hasAudio := r.2.1.any (fun q => decide ((1 : ℚ) / 10000 < |q|))
        let st := approachingEndCheck st
        postChunkPhase st hasAudio inp.now

section ClaimC10

/-- C10: if a `load` command names the source deck of an in-progress
crossfade (the currently active deck while crossfading), the mixer first
snaps the crossfade to completion — clearing the crossfade state, making the
crossfade target the active deck, zeroing the target deck's
`samples_played`, and emitting `deck_changed` with
`triggered_by=crossfade_snap` — and only then reloads the named deck (whose
buffers are cleared, `is_loading` set, a fresh channel attached and
`load_started_at` stamped), the reload's log line following the snap's. -/
theorem load_on_crossfade_source_snaps (st : MixerState) (deck : String)
    (autoplay : Bool) (now : ℕ)
    (hcf : st.crossfading = true) (hd : deck = st.active_deck)
    (hdeck : deck = "A" ∨ deck = "B")
    (htgt : st.target_deck = "A" ∨ st.target_deck = "B") :
    (handleCommand st (.Load deck autoplay) now).crossfading = false ∧
    (handleCommand st (.Load deck autoplay) now).crossfade_left = 0 ∧
    (handleCommand st (.Load deck autoplay) now).crossfade_total = 0 ∧
    (handleCommand st (.Load deck autoplay) now).proactive_crossfade_triggered = false ∧
    (handleCommand st (.Load deck autoplay) now).active_deck = st.target_deck ∧
    ((handleCommand st (.Load deck autoplay) now).deckOf st.target_deck).samples_played = 0 ∧
    ((handleCommand st (.Load deck autoplay) now).deckOf deck).samples = [] ∧
    ((handleCommand st (.Load deck autoplay) now).deckOf deck).is_loading = true ∧
    ((handleCommand st (.Load deck autoplay) now).deckOf deck).receiver = some ⟨[], false⟩ ∧
    ((handleCommand st (.Load deck autoplay) now).deckOf deck).load_started_at = some now ∧
    (handleCommand st (.Load deck autoplay) now).log =
      st.log ++ [.info, .deck_changed st.target_deck "crossfade_snap", .info] := by
  rcases hdeck with hdA | hdB <;> rcases htgt with htA | htB
  · subst hdA
    have hd' : st.active_deck = "A" := hd.symm
    simp [handleCommand, hcf, hd', htA, MixerState.emit, MixerState.deckOf, Deck.load]
  · subst hdA
    have hd' : st.active_deck = "A" := hd.symm
    simp [handleCommand, hcf, hd', htB, MixerState.emit, MixerState.deckOf, Deck.load]
  · subst hdB
    have hd' : st.active_deck = "B" := hd.symm
    simp [handleCommand, hcf, hd', htA, MixerState.emit, MixerState.deckOf, Deck.load]
  · subst hdB
    have hd' : st.active_deck = "B" := hd.symm
    simp [handleCommand, hcf, hd', htB, MixerState.emit, MixerState.deckOf, Deck.load]

end ClaimC10

section ClaimC9

/-- C9 (amended): the periodic buffer-monitor path is edge-triggered — when
it runs (every fifth iteration) it emits `buffer_ready` for a deck exactly
when that non-active deck is ready and its previous-ready flag was false,
and it records the current readiness into the flags without touching the
decks, so an unchanged deck can never produce a second emission from this
path.  (The immediate-skip and pending-transition paths additionally emit
`buffer_ready` unconditionally on execution; see the counterexample.) -/
theorem buffer_monitor_edge (st : MixerState) (h5 : 4 ≤ st.buffer_monitor_counter) :
    ((Event.buffer_ready "B") ∈ (bufferMonitor st).log ↔
      (Event.buffer_ready "B") ∈ st.log ∨
      ((st.active_deck = "A" ∨ st.active_deck = "C") ∧
       st.deck_b.is_ready_for_crossfade = true ∧ st.buffer_prev_ready_b = false)) ∧
    ((Event.buffer_ready "A") ∈ (bufferMonitor st).log ↔
      (Event.buffer_ready "A") ∈ st.log ∨
      ((st.active_deck = "B" ∨ st.active_deck = "C") ∧
       st.deck_a.is_ready_for_crossfade = true ∧ st.buffer_prev_ready_a = false)) ∧
    (bufferMonitor st).buffer_prev_ready_b = st.deck_b.is_ready_for_crossfade ∧
    (bufferMonitor st).buffer_prev_ready_a = st.deck_a.is_ready_for_crossfade ∧
    (bufferMonitor st).deck_a = st.deck_a ∧
    (bufferMonitor st).deck_b = st.deck_b := by
  have hc : 5 ≤ st.buffer_monitor_counter + 1 := by omega
  simp only [bufferMonitor]
  rw [if_pos hc]
  by_cases hB : (st.active_deck = "A" ∨ st.active_deck = "C") ∧
      st.deck_b.is_ready_for_crossfade = true ∧ st.buffer_prev_ready_b = false <;>
    by_cases hA : (st.active_deck = "B" ∨ st.active_deck = "C") ∧
        st.deck_a.is_ready_for_crossfade = true ∧ st.buffer_prev_ready_a = false <;>
    simp [hB, hA, MixerState.emit, or_assoc]

/-- Iteration inputs for the counterexample run: load deck B, deliver a
5-sample chunk and close its channel, then skip to B while paused. -/
def c9In1 : MixerInput :=
  { cmds := [.Load "B" true], arrivals_a := [], close_a := false,
    arrivals_b := [], close_b := false, now := 0 }

def c9In2 : MixerInput :=
  { cmds := [], arrivals_a := [], close_a := false,
    arrivals_b := [List.replicate 5 1], close_b := true, now := 100 }

def c9In3 : MixerInput :=
  { cmds := [.SkipTo "B", .PauseAll], arrivals_a := [], close_a := false,
    arrivals_b := [], close_b := false, now := 200 }

def c9Run1 : MixerState := mixerIteration MixerState.initial c9In1

def c9Run2 : MixerState := mixerIteration c9Run1 c9In2

def c9Run3 : MixerState := mixerIteration c9Run2 c9In3

/-- C9 (counterexample): in this three-iteration run, deck B's
`is_ready_for_crossfade` is false throughout (its queue never exceeds 5
samples, far below the 48000 threshold), so B undergoes no
not-ready-to-ready transition — yet exactly one `buffer_ready B` event is
emitted, by the immediate-skip path of `skip_to` (line 658 of the source),
refuting "buffer_ready is never emitted for a deck that has not just
transitioned from not-ready to ready". -/
theorem buffer_ready_without_transition :
    (c9Run3.log.countP (fun e => decide (e = Event.buffer_ready "B"))) = 1 ∧
    MixerState.initial.deck_b.is_ready_for_crossfade = false ∧
    c9Run1.deck_b.is_ready_for_crossfade = false ∧
    c9Run2.deck_b.is_ready_for_crossfade = false ∧
    c9Run3.deck_b.is_ready_for_crossfade = false ∧
    MixerState.initial.deck_b.samples.length = 0 ∧
    c9Run1.deck_b.samples.length = 0 ∧
    c9Run2.deck_b.samples.length = 5 ∧
    c9Run3.deck_b.samples.length = 5 := by
  decide

/-- Concrete state for the C9 witness: monitor due, deck B ready. -/
def c9WitnessState : MixerState :=
  { MixerState.initial with
      buffer_monitor_counter := 4
      deck_b := { Deck.new "B" with samples := List.replicate 48000 0 } }

/-- C9 witness: the monitor records deck B's readiness into the flag. -/
theorem buffer_monitor_edge_witness :
    (bufferMonitor c9WitnessState).buffer_prev_ready_b =
      c9WitnessState.deck_b.is_ready_for_crossfade :=
  (buffer_monitor_edge c9WitnessState (by decide)).2.2.1

end ClaimC9

/-- Concrete state for the C10 witness: crossfading from A toward B. -/
def c10WitnessState : MixerState :=
  { MixerState.initial with
      crossfading := true
      active_deck := "A"
      target_deck := "B"
      crossfade_total := 10
      crossfade_left := 7
      deck_b := { Deck.new "B" with samples_played := 123 } }

/-- C10 witness: loading the crossfade source deck snaps onto B. -/
theorem load_on_crossfade_source_snaps_witness :
    (handleCommand c10WitnessState (.Load "A" true) 5).active_deck = "B" :=
  (load_on_crossfade_source_snaps c10WitnessState "A" true 5 rfl rfl
    (Or.inl rfl) (Or.inr rfl)).2.2.2.2.1

/-- Concrete starved-crossfade state for the C2 witness. -/
def c2WitnessState : MixerState :=
  { MixerState.initial with
      crossfading := true
      active_deck := "A"
      target_deck := "B"
      crossfade_total := 10
      crossfade_left := 7
      deck_a := { Deck.new "A" with samples := [2, 3] } }

/-- C2 witness: with the target starved, the counter does not advance. -/
theorem crossfade_starved_slot_witness :
    (mixSlot c2WitnessState).1.crossfade_left = c2WitnessState.crossfade_left :=
  ((crossfade_starved_slot c2WitnessState rfl (Or.inl ⟨rfl, rfl⟩)).1 rfl).2.1
